import Mathlib

/-!
Shallow embedding of the IPC session layer of `obs-telemetry-bridge`
(`src/ipc/mod.rs`), together with the collaborator data types it reads
(`src/model/mod.rs`, `src/aegis/mod.rs`).

Machine integers are modelled as `Nat` (with explicit saturation where the
source saturates); monotonic instants and millisecond durations are modelled
as `Int` milliseconds; `f32` fields are modelled as `ℚ`.  Fields of the
collaborator structs that the IPC module never reads are omitted.
-/

/-- Constants from `ipc/mod.rs` (production `cfg(not(test))` values). -/
def IPC_PROTOCOL_VERSION : Nat := 1

def MAX_FRAME_SIZE : Nat := 64 * 1024

def STATUS_PUSH_INTERVAL_MS : Int := 1000

def HEARTBEAT_TIMEOUT_MS : Int := 3500

def PROTOCOL_ERROR_WINDOW_MS : Int := 10000

def PROTOCOL_ERROR_RESET_THRESHOLD : Nat := 5

/-- `env!("CARGO_PKG_VERSION")`: the crate version baked into `hello_ack`. -/
def CORE_VERSION : String := "0.1.0"

/-- `model::StreamOutput` (fields read by the IPC module). `bitrate_kbps` is a
Rust `u32`, modelled as `Nat`. -/
structure StreamOutput where
  bitrate_kbps : Nat
  deriving Repr, DecidableEq

/-- `model::ObsFrame` (fields read by the IPC module). -/
structure ObsFrame where
  connected : Bool
  deriving Repr, DecidableEq

/-- `model::NetworkFrame` (fields read by the IPC module); `latency_ms : f32`
is modelled as `ℚ`. -/
structure NetworkFrame where
  latency_ms : ℚ
  deriving Repr, DecidableEq

/-- `model::TelemetryFrame` (fields read by the IPC module); `health : f32` is
modelled as `ℚ`. -/
structure TelemetryFrame where
  health : ℚ
  obs : ObsFrame
  network : NetworkFrame
  streams : List StreamOutput
  deriving Repr, DecidableEq

/-- `aegis::RelayTimers` (fields read by the IPC module). -/
structure RelayTimers where
  grace_remaining_seconds : Option Nat
  deriving Repr, DecidableEq

/-- `aegis::RelaySession` (fields read by the IPC module). -/
structure RelaySession where
  status : String
  region : Option String
  timers : Option RelayTimers
  deriving Repr, DecidableEq

/-- `ipc::Priority`. -/
inductive Priority where
  | critical
  | high
  | normal
  | low
  deriving Repr, DecidableEq

/-- `ipc::SnapshotMode`. -/
inductive SnapshotMode where
  | studio
  | irl
  deriving Repr, DecidableEq

/-- `ipc::SnapshotHealth`. -/
inductive SnapshotHealth where
  | good
  | degraded
  | offline
  deriving Repr, DecidableEq

/-- `ipc::RelayStatus`. -/
inductive RelayStatus where
  | inactive
  | provisioning
  | active
  | grace
  deriving Repr, DecidableEq

/-- `ipc::StateModeV1`. -/
inductive StateModeV1 where
  | studio
  | irlConnecting
  | irlActive
  | irlGrace
  | degraded
  | fatal
  deriving Repr, DecidableEq

/-- `ipc::UserNoticeLevel`. -/
inductive UserNoticeLevel where
  | info
  | warn
  | error
  deriving Repr, DecidableEq

/-- `ipc::ProtocolErrorCode`. -/
inductive ProtocolErrorCode where
  | frameTooLarge
  | decodeFailed
  | unknownType
  | timeout
  | invalidPayload
  deriving Repr, DecidableEq

/-- `ipc::RelaySnapshot`. -/
structure RelaySnapshot where
  status : RelayStatus
  region : Option String
  grace_remaining_seconds : Nat
  deriving Repr, DecidableEq

/-- `ipc::StatusSnapshotSettingsPayload`. -/
structure StatusSnapshotSettingsPayload where
  auto_scene_switch : Option Bool
  low_quality_fallback : Option Bool
  manual_override : Option Bool
  chat_bot : Option Bool
  alerts : Option Bool
  deriving Repr, DecidableEq

/-- `ipc::StatusSnapshotPayload`. -/
structure StatusSnapshotPayload where
  mode : SnapshotMode
  state_mode : StateModeV1
  health : SnapshotHealth
  bitrate_kbps : Nat
  rtt_ms : Nat
  override_enabled : Bool
  relay : RelaySnapshot
  settings : Option StatusSnapshotSettingsPayload
  deriving Repr, DecidableEq

/-- `ipc::HelloPayload`. -/
structure HelloPayload where
  plugin_version : String
  protocol_version : Nat
  obs_pid : Nat
  capabilities : List String
  deriving Repr, DecidableEq

/-- `ipc::PingPayload`. -/
structure PingPayload where
  nonce : String
  deriving Repr, DecidableEq

/-- `ipc::HelloAckPayload`. -/
structure HelloAckPayload where
  core_version : String
  protocol_version : Nat
  capabilities : List String
  deriving Repr, DecidableEq

/-- `ipc::SceneSwitchResultPayload`. -/
structure SceneSwitchResultPayload where
  request_id : String
  ok : Bool
  error : Option String
  deriving Repr, DecidableEq

/-- `ipc::ObsShutdownNoticePayload`. -/
structure ObsShutdownNoticePayload where
  reason : String
  deriving Repr, DecidableEq

/-- `ipc::SwitchScenePayload`. -/
structure SwitchScenePayload where
  request_id : String
  scene_name : String
  reason : String
  deadline_ms : Nat
  deriving Repr, DecidableEq

/-- `ipc::SetModeRequestPayload`. -/
structure SetModeRequestPayload where
  mode : String
  deriving Repr, DecidableEq

/-- `ipc::SetSettingRequestPayload`. -/
structure SetSettingRequestPayload where
  key : String
  value : Bool
  deriving Repr, DecidableEq

/-- The dynamic (`serde_json::Value`) payload of an inbound envelope, as seen
by the typed `decode_payload` calls: a value either decodes to exactly one of
the inbound payload records, or decodes to none of them (`junk`). -/
inductive IpcValue where
  | vHello (p : HelloPayload)
  | vPing (p : PingPayload)
  | vRequestStatus
  | vSetMode (p : SetModeRequestPayload)
  | vSetSetting (p : SetSettingRequestPayload)
  | vSceneSwitchResult (p : SceneSwitchResultPayload)
  | vObsShutdown (p : ObsShutdownNoticePayload)
  | junk
  deriving Repr, DecidableEq

/-- `ipc::Envelope<T>` (`ts_unix_ms` is the sender's wall clock). -/
structure Envelope (T : Type) where
  v : Nat
  id : String
  ts_unix_ms : Nat
  message_type : String
  priority : Priority
  payload : T
  deriving Repr, DecidableEq

/-- `decode_payload::<HelloPayload>` on the dynamic tree. -/
def decodeHello : IpcValue → Option HelloPayload
  | .vHello p => some p
  | _ => none

/-- `decode_payload::<PingPayload>` on the dynamic tree. -/
def decodePing : IpcValue → Option PingPayload
  | .vPing p => some p
  | _ => none

/-- `decode_payload::<RequestStatusPayload>` on the dynamic tree. -/
def decodeRequestStatus : IpcValue → Option Unit
  | .vRequestStatus => some ()
  | _ => none

/-- `decode_payload::<SetModeRequestPayload>` on the dynamic tree. -/
def decodeSetMode : IpcValue → Option SetModeRequestPayload
  | .vSetMode p => some p
  | _ => none

/-- `decode_payload::<SetSettingRequestPayload>` on the dynamic tree. -/
def decodeSetSetting : IpcValue → Option SetSettingRequestPayload
  | .vSetSetting p => some p
  | _ => none

/-- `decode_payload::<SceneSwitchResultPayload>` on the dynamic tree. -/
def decodeSceneSwitchResult : IpcValue → Option SceneSwitchResultPayload
  | .vSceneSwitchResult p => some p
  | _ => none

/-- `decode_payload::<ObsShutdownNoticePayload>` on the dynamic tree. -/
def decodeObsShutdown : IpcValue → Option ObsShutdownNoticePayload
  | .vObsShutdown p => some p
  | _ => none

/-- `ipc::SessionOverrides`. -/
structure SessionOverrides where
  mode : Option SnapshotMode := none
  auto_scene_switch : Option Bool := none
  low_quality_fallback : Option Bool := none
  manual_override : Option Bool := none
  chat_bot : Option Bool := none
  alerts : Option Bool := none
  deriving Repr, DecidableEq

/-- `SessionOverrides::set_mode_if_changed`. -/
def set_mode_if_changed (o : SessionOverrides) (mode : SnapshotMode) :
    SessionOverrides × Bool :=
  if o.mode = some mode then (o, false)
  else ({ o with mode := some mode }, true)

/-- `SessionOverrides::apply_setting_if_changed`; `Except.error ()` is the
Rust `Err(())` for an unknown key. -/
def apply_setting_if_changed (o : SessionOverrides) (key : String) (value : Bool) :
    Except Unit (SessionOverrides × Bool) :=
  if key = "auto_scene_switch" then
    if o.auto_scene_switch = some value then .ok (o, false)
    else .ok ({ o with auto_scene_switch := some value }, true)
  else if key = "low_quality_fallback" then
    if o.low_quality_fallback = some value then .ok (o, false)
    else .ok ({ o with low_quality_fallback := some value }, true)
  else if key = "manual_override" then
    if o.manual_override = some value then .ok (o, false)
    else .ok ({ o with manual_override := some value }, true)
  else if key = "chat_bot" then
    if o.chat_bot = some value then .ok (o, false)
    else .ok ({ o with chat_bot := some value }, true)
  else if key = "alerts" then
    if o.alerts = some value then .ok (o, false)
    else .ok ({ o with alerts := some value }, true)
  else .error ()

/-- `SessionOverrides::has_any_settings`. -/
def has_any_settings (o : SessionOverrides) : Bool :=
  o.auto_scene_switch.isSome || o.low_quality_fallback.isSome ||
    o.manual_override.isSome || o.chat_bot.isSome || o.alerts.isSome

/-- `ipc::derive_state_mode`. -/
def derive_state_mode (frame : TelemetryFrame) (relay_session : Option RelaySession) :
    StateModeV1 :=
  if frame.obs.connected = false then .degraded
  else
    match relay_session with
    | some s =>
      if s.status = "provisioning" then .irlConnecting
      else if s.status = "active" then .irlActive
      else if s.status = "grace" then .irlGrace
      else .studio
    | none => .studio

/-- `u32::saturating_add` on the `Nat` model of `u32`. -/
def u32SaturatingAdd (a b : Nat) : Nat :=
  min (a + b) (2 ^ 32 - 1)

/-- `frame.network.latency_ms.max(0.0).round() as u32`: clamp at 0, round
half away from zero, saturating cast to `u32`. -/
def rttOfLatency (latency : ℚ) : Nat :=
  min (max latency 0 + 1 / 2).floor.toNat (2 ^ 32 - 1)

/-- `ipc::build_status_snapshot_with_overrides`. -/
def build_status_snapshot_with_overrides (frame : TelemetryFrame)
    (relay_session : Option RelaySession) (overrides : SessionOverrides) :
    StatusSnapshotPayload :=
  let state_mode := derive_state_mode frame relay_session
  let derived_mode : SnapshotMode :=
    match state_mode with
    | .irlConnecting | .irlActive | .irlGrace => .irl
    | _ => .studio
  let mode :=
    match overrides.mode with
    | some m => m
    | none => derived_mode
  let health : SnapshotHealth :=
    if frame.obs.connected = false then .offline
    else if frame.health < 1 / 2 then .degraded
    else .good
  let bitrate_kbps := frame.streams.foldl (fun acc s => u32SaturatingAdd acc s.bitrate_kbps) 0
  let relay : RelaySnapshot :=
    match relay_session with
    | some s =>
      { status :=
          if s.status = "provisioning" then .provisioning
          else if s.status = "active" then .active
          else if s.status = "grace" then .grace
          else .inactive
        region := s.region
        grace_remaining_seconds := ((s.timers.bind (·.grace_remaining_seconds)).getD 0) }
    | none => { status := .inactive, region := none, grace_remaining_seconds := 0 }
  { mode := mode
    state_mode := state_mode
    health := health
    bitrate_kbps := bitrate_kbps
    rtt_ms := rttOfLatency frame.network.latency_ms
    override_enabled := overrides.manual_override.getD false
    relay := relay
    settings :=
      if has_any_settings overrides then
        some { auto_scene_switch := overrides.auto_scene_switch
               low_quality_fallback := overrides.low_quality_fallback
               manual_override := overrides.manual_override
               chat_bot := overrides.chat_bot
               alerts := overrides.alerts }
      else none }

/-- `ipc::build_status_snapshot` (default overrides). -/
def build_status_snapshot (frame : TelemetryFrame) (relay_session : Option RelaySession) :
    StatusSnapshotPayload :=
  build_status_snapshot_with_overrides frame relay_session {}

/-- The front-trimming loop of `ProtocolErrorTracker::record_and_should_reset`:
pop from the front while the front entry is more than the window older than
`now`, stopping at the first entry that is not. -/
def dropOldFront : List Int → Int → List Int
  | [], _ => []
  | f :: rest, now =>
    if now - f > PROTOCOL_ERROR_WINDOW_MS then dropOldFront rest now
    else f :: rest

/-- `ProtocolErrorTracker::record_and_should_reset`: push `now`, trim the
front, return the new queue and whether its length exceeds the threshold. -/
def record_and_should_reset (recent : List Int) (now : Int) : List Int × Bool :=
  let appended := recent ++ [now]
  let trimmed := dropOldFront appended now
  (trimmed, decide (trimmed.length > PROTOCOL_ERROR_RESET_THRESHOLD))

/-- Read errors of `ipc::read_frame` (all surfaced as `io::Error`; the
`InvalidData` kind covers `frameTooLarge` and `decodeFailed`, other kinds are
end-of-stream / transport errors). -/
inductive ReadError where
  | endOfStream
  | frameTooLarge (len : Nat)
  | decodeFailed
  deriving Repr, DecidableEq

/-- `read_u32_le`: consume a 4-byte little-endian length from the byte
stream. -/
def readU32LE : List Nat → Option (Nat × List Nat)
  | b0 :: b1 :: b2 :: b3 :: rest =>
    some (b0 + 256 * b1 + 65536 * b2 + 16777216 * b3, rest)
  | _ => none

/-- `ipc::read_frame`, over an abstract MessagePack envelope decoder `dec`
(the `rmp_serde::from_slice` call): read the 4-byte little-endian length `L`,
reject `L > MAX_FRAME_SIZE`, read exactly `L` body bytes, decode them. -/
def read_frame (dec : List Nat → Option (Envelope IpcValue)) (input : List Nat) :
    Except ReadError (Envelope IpcValue) :=
  match readU32LE input with
  | none => .error .endOfStream
  | some (len, rest) =>
    if len > MAX_FRAME_SIZE then .error (.frameTooLarge len)
    else if rest.length < len then .error .endOfStream
    else
      match dec (rest.take len) with
      | some env => .ok env
      | none => .error .decodeFailed

/-- `ipc::write_frame`, over the already-encoded envelope bytes (the
`rmp_serde::to_vec_named` result): if the encoded size exceeds
`MAX_FRAME_SIZE`, fail without writing; otherwise write the 4-byte
little-endian length followed by the body.  `none` models the error return
before any byte is written. -/
def write_frame (encoded : List Nat) : Option (List Nat) :=
  if encoded.length > MAX_FRAME_SIZE then none
  else
    some ([encoded.length % 256, encoded.length / 256 % 256,
           encoded.length / 65536 % 256, encoded.length / 16777216 % 256] ++ encoded)

/-- `ipc::PendingSwitchScene` (`deadline_at` is a monotonic instant in ms). -/
structure PendingSwitchScene where
  scene_name : String
  deadline_at : Int
  deriving Repr, DecidableEq

/-- `ipc::CoreIpcCommand`. -/
inductive CoreIpcCommand where
  | switchScene (scene_name reason : String) (deadline_ms : Nat)
  deriving Repr, DecidableEq

/-- `ipc::IpcSwitchRequestDebug` (fields written by the session loop; the
wall-clock stamp is omitted). -/
structure IpcSwitchRequestDebug where
  request_id : String
  scene_name : String
  reason : String
  deadline_ms : Nat
  deriving Repr, DecidableEq

/-- One mutation of the debug mirror performed inside a single
`update_debug_status` closure. -/
inductive DebugUpdate where
  | pendingCount (n : Nat)
  | switchRequest (r : IpcSwitchRequestDebug)
  | switchResult (request_id : String) (status : String) (error : Option String)
  | notice (message : String)
  deriving Repr, DecidableEq

/-- One outbound frame written by `write_frame` in the session loop, reduced
to its type tag, payload and priority (the generated envelope `id` and
wall-clock `ts_unix_ms` are nondeterministic and omitted). -/
inductive OutFrame where
  | helloAck (p : HelloAckPayload) (priority : Priority)
  | pong (nonce : String) (priority : Priority)
  | statusSnapshot (p : StatusSnapshotPayload) (priority : Priority)
  | switchScene (p : SwitchScenePayload) (priority : Priority)
  | userNotice (level : UserNoticeLevel) (message : String) (priority : Priority)
  | protocolError (code : ProtocolErrorCode) (message : String)
      (related_message_id : Option String) (priority : Priority)
  deriving Repr, DecidableEq

/-- One observable effect of the session loop: a written frame or a debug
mirror mutation. -/
inductive Output where
  | frame (f : OutFrame)
  | debug (d : DebugUpdate)
  deriving Repr, DecidableEq

/-- The mutable locals of `handle_session_io`. -/
structure SessionState where
  protocolErrors : List Int
  pendingSwitches : List (String × PendingSwitchScene)
  sessionOverrides : SessionOverrides
  handshakeComplete : Bool
  lastPingAt : Int
  lastStatusPushAt : Int
  deriving Repr, DecidableEq

/-- The locals as initialised at the top of `handle_session_io`, with
`startNow` the value of `Instant::now()` there. -/
def initialSessionState (startNow : Int) : SessionState :=
  { protocolErrors := []
    pendingSwitches := []
    sessionOverrides := {}
    handshakeComplete := false
    lastPingAt := startNow
    lastStatusPushAt := startNow }

/-- Whether the loop keeps iterating after a step (`continue`) or returns
normally (`terminated`, the Rust `return Ok(())`). -/
inductive StepExit where
  | cont
  | terminated
  deriving Repr, DecidableEq

/-- `HashMap::get`-style lookup on the association-list model of
`pending_switches`. -/
def pendingLookup (m : List (String × PendingSwitchScene)) (k : String) :
    Option PendingSwitchScene :=
  (m.find? (fun kv => kv.1 = k)).map Prod.snd

/-- `HashMap::remove` on the association-list model. -/
def pendingRemove (m : List (String × PendingSwitchScene)) (k : String) :
    List (String × PendingSwitchScene) :=
  m.filter (fun kv => kv.1 ≠ k)

/-- `HashMap::insert` on the association-list model (replaces any existing
entry with the same key). -/
def pendingInsert (m : List (String × PendingSwitchScene)) (k : String)
    (v : PendingSwitchScene) : List (String × PendingSwitchScene) :=
  (k, v) :: pendingRemove m k

/-- The `CoreIpcCommand::SwitchScene` arm of the command-drain phase
(`handle_session_io`, the `while let Ok(cmd) = core_cmd_rx.try_recv()` body):
commands arriving before the handshake are dropped; otherwise emit a
`switch_scene` frame, insert the pending entry, and update the debug
mirror.  `freshId` is the generated `Uuid::new_v4()` request id. -/
def handle_core_command (st : SessionState) (cmd : CoreIpcCommand) (freshId : String)
    (now : Int) : SessionState × List Output :=
  match cmd with
  | .switchScene scene_name reason deadline_ms =>
    if st.handshakeComplete = false then (st, [])
    else
      let payload : SwitchScenePayload :=
        { request_id := freshId, scene_name := scene_name, reason := reason
          deadline_ms := deadline_ms }
      let pending' := pendingInsert st.pendingSwitches freshId
        { scene_name := scene_name, deadline_at := now + (deadline_ms : Int) }
      (({ st with pendingSwitches := pending' }),
        [Output.frame (OutFrame.switchScene payload .critical),
         Output.debug (.pendingCount pending'.length),
         Output.debug (.switchRequest
           { request_id := freshId, scene_name := scene_name, reason := reason
             deadline_ms := deadline_ms })])

/-- The per-id body of the timeout sweep: `pending_switches.remove(&id)`,
then the `user_notice` and debug-mirror updates when the entry was present. -/
def sweepOne (m : List (String × PendingSwitchScene)) (id : String) :
    List (String × PendingSwitchScene) × List Output :=
  match pendingLookup m id with
  | none => (m, [])
  | some expired =>
    let m' := pendingRemove m id
    (m',
      [Output.frame (OutFrame.userNotice .warn
         ("Scene switch to '" ++ expired.scene_name ++ "' timed out (request " ++ id ++ ")")
         .high),
       Output.debug (.pendingCount m'.length),
       Output.debug (.switchResult id "timeout" none),
       Output.debug (.notice
         ("Scene switch '" ++ expired.scene_name ++ "' timed out (" ++ id ++ ")"))])

/-- The loop over the collected expired ids. -/
def sweepLoop (m : List (String × PendingSwitchScene)) :
    List String → List (String × PendingSwitchScene) × List Output
  | [] => (m, [])
  | id :: rest =>
    let (m', out) := sweepOne m id
    let (m'', outs) := sweepLoop m' rest
    (m'', out ++ outs)

/-- The pending-timeout sweep phase of `handle_session_io`: collect the ids
whose `deadline_at` has passed (`now >= deadline_at`), then remove each and
emit its timeout notice and debug updates. -/
def sweep_expired (st : SessionState) (now : Int) : SessionState × List Output :=
  let expiredIds :=
    (st.pendingSwitches.filter (fun kv => now ≥ kv.2.deadline_at)).map Prod.fst
  let (m', outs) := sweepLoop st.pendingSwitches expiredIds
  ({ st with pendingSwitches := m' }, outs)

/-- The periodic status-push phase of `handle_session_io`. -/
def status_push_check (st : SessionState) (frame : TelemetryFrame)
    (relay : Option RelaySession) (now : Int) : SessionState × List Output :=
  if st.handshakeComplete = true ∧ now - st.lastStatusPushAt ≥ STATUS_PUSH_INTERVAL_MS then
    let payload := build_status_snapshot_with_overrides frame relay st.sessionOverrides
    ({ st with lastStatusPushAt := now },
      [Output.frame (OutFrame.statusSnapshot payload .normal)])
  else (st, [])

/-- The heartbeat-watchdog phase of `handle_session_io`. -/
def heartbeat_check (st : SessionState) (now : Int) :
    SessionState × List Output × StepExit :=
  if st.handshakeComplete = true ∧ now - st.lastPingAt ≥ HEARTBEAT_TIMEOUT_MS then
    (st,
      [Output.frame (OutFrame.protocolError .timeout "Heartbeat timeout (missing ping)"
         none .high),
       Output.debug (.notice "Heartbeat timeout (missing ping)")],
      .terminated)
  else (st, [], .cont)

/-- `emit_protocol_error_for_payload` followed by the
`record_and_should_reset` check, shared by every typed decode-failure arm of
the dispatch. -/
def onPayloadDecodeFailure (st : SessionState) (envId : String) (now : Int) :
    SessionState × List Output × StepExit :=
  let (recent, reset) := record_and_should_reset st.protocolErrors now
  ({ st with protocolErrors := recent },
    [Output.frame (OutFrame.protocolError .invalidPayload "payload decode failed"
       (some envId) .high)],
    if reset then .terminated else .cont)

/-- The read-error arm of the inbound read (`io::ErrorKind::InvalidData`):
classify as `frameTooLarge` or `decodeFailed`, emit the `protocol_error`,
note the debug mirror, record the tracker and maybe reset. -/
def handle_read_frame_error (st : SessionState) (tooLarge : Bool) (msg : String)
    (now : Int) : SessionState × List Output × StepExit :=
  let code : ProtocolErrorCode := if tooLarge then .frameTooLarge else .decodeFailed
  let (recent, reset) := record_and_should_reset st.protocolErrors now
  ({ st with protocolErrors := recent },
    [Output.frame (OutFrame.protocolError code msg none .high),
     Output.debug (.notice "IPC decode/frame protocol error")],
    if reset then .terminated else .cont)

/-- The inbound-frame dispatch of `handle_session_io` (envelope-version check
followed by the `match incoming.message_type.as_str()`); `frame` and `relay`
are the current values of the telemetry cell and the relay mirror. -/
def handle_incoming (st : SessionState) (env : Envelope IpcValue)
    (frame : TelemetryFrame) (relay : Option RelaySession) (now : Int) :
    SessionState × List Output × StepExit :=
  if env.v ≠ IPC_PROTOCOL_VERSION then
    (st,
      [Output.frame (OutFrame.userNotice .error "IPC protocol version mismatch" .high),
       Output.debug (.notice "IPC envelope version mismatch")],
      .terminated)
  else if env.message_type = "hello" then
    match decodeHello env.payload with
    | none => onPayloadDecodeFailure st env.id now
    | some hello =>
      if hello.protocol_version ≠ IPC_PROTOCOL_VERSION then
        (st,
          [Output.frame (OutFrame.userNotice .error "Protocol mismatch" .high),
           Output.debug (.notice "IPC protocol mismatch")],
          .terminated)
      else
        ({ st with
             handshakeComplete := true
             lastPingAt := now
             lastStatusPushAt := now - STATUS_PUSH_INTERVAL_MS },
          [Output.frame (OutFrame.helloAck
             { core_version := CORE_VERSION
               protocol_version := IPC_PROTOCOL_VERSION
               capabilities := ["state_machine", "aegis", "ipc_stub"] } .high)],
          .cont)
  else if env.message_type = "ping" then
    match decodePing env.payload with
    | none => onPayloadDecodeFailure st env.id now
    | some ping =>
      ({ st with lastPingAt := now },
        [Output.frame (OutFrame.pong ping.nonce .normal)],
        .cont)
  else if env.message_type = "request_status" then
    match decodeRequestStatus env.payload with
    | none => onPayloadDecodeFailure st env.id now
    | some _ =>
      let payload := build_status_snapshot_with_overrides frame relay st.sessionOverrides
      ({ st with lastStatusPushAt := now },
        [Output.frame (OutFrame.statusSnapshot payload .high)],
        .cont)
  else if env.message_type = "set_mode_request" then
    match decodeSetMode env.payload with
    | none => onPayloadDecodeFailure st env.id now
    | some req =>
      if req.mode = "studio" ∨ req.mode = "irl" then
        let normalized : SnapshotMode := if req.mode = "studio" then .studio else .irl
        let (o', changed) := set_mode_if_changed st.sessionOverrides normalized
        if changed = false then (st, [], .cont)
        else
          let st' := { st with sessionOverrides := o' }
          let payload := build_status_snapshot_with_overrides frame relay st'.sessionOverrides
          ({ st' with lastStatusPushAt := now },
            [Output.frame (OutFrame.userNotice .info
               ("Dock mode override set to " ++ req.mode) .normal),
             Output.frame (OutFrame.statusSnapshot payload .high)],
            .cont)
      else
        (st,
          [Output.frame (OutFrame.protocolError .invalidPayload
             ("Invalid mode for set_mode_request: " ++ req.mode) (some env.id) .high)],
          .cont)
  else if env.message_type = "set_setting_request" then
    match decodeSetSetting env.payload with
    | none => onPayloadDecodeFailure st env.id now
    | some req =>
      match apply_setting_if_changed st.sessionOverrides req.key req.value with
      | .error () =>
        (st,
          [Output.frame (OutFrame.protocolError .invalidPayload
             ("Unsupported setting key for set_setting_request: " ++ req.key)
             (some env.id) .high)],
          .cont)
      | .ok (o', changed) =>
        if changed = false then (st, [], .cont)
        else
          let st' := { st with sessionOverrides := o' }
          let payload := build_status_snapshot_with_overrides frame relay st'.sessionOverrides
          ({ st' with lastStatusPushAt := now },
            [Output.frame (OutFrame.userNotice .info
               ("Dock setting '" ++ req.key ++ "' set to "
                 ++ (if req.value then "true" else "false")) .normal),
             Output.frame (OutFrame.statusSnapshot payload .high)],
            .cont)
  else if env.message_type = "scene_switch_result" then
    match decodeSceneSwitchResult env.payload with
    | none => onPayloadDecodeFailure st env.id now
    | some result =>
      match pendingLookup st.pendingSwitches result.request_id with
      | none =>
        (st,
          [Output.debug (.switchResult result.request_id "unknown_request" result.error),
           Output.debug (.notice "scene_switch_result for unknown request")],
          .cont)
      | some _ =>
        let pending' := pendingRemove st.pendingSwitches result.request_id
        ({ st with pendingSwitches := pending' },
          [Output.debug (.pendingCount pending'.length),
           Output.debug (.switchResult result.request_id
             (if result.ok then "ok" else "error") result.error)],
          .cont)
  else if env.message_type = "obs_shutdown_notice" then
    match decodeObsShutdown env.payload with
    | none => onPayloadDecodeFailure st env.id now
    | some notice =>
      (st,
        [Output.debug (.notice ("obs shutdown notice: " ++ notice.reason))],
        .terminated)
  else
    let (recent, reset) := record_and_should_reset st.protocolErrors now
    ({ st with protocolErrors := recent },
      [Output.frame (OutFrame.protocolError .unknownType
         ("Unsupported IPC command in core stub: " ++ env.message_type)
         (some env.id) .high),
       Output.debug (.notice ("Unsupported IPC command: " ++ env.message_type))],
      if reset then .terminated else .cont)

/-- One occurrence of one of the five event sources of the session loop,
with the inputs it consumes (`now` is `Instant::now()` at that point; `frame`
and `relay` are the current cell values where the phase reads them). -/
inductive Event where
  | coreCmd (cmd : CoreIpcCommand) (freshId : String) (now : Int)
  | sweep (now : Int)
  | statusPush (frame : TelemetryFrame) (relay : Option RelaySession) (now : Int)
  | heartbeat (now : Int)
  | readTimeout
  | readFrameError (tooLarge : Bool) (msg : String) (now : Int)
  | incoming (env : Envelope IpcValue) (frame : TelemetryFrame)
      (relay : Option RelaySession) (now : Int)
  deriving Repr, DecidableEq

/-- One step of the session loop on one event. -/
def session_step (st : SessionState) : Event → SessionState × List Output × StepExit
  | .coreCmd cmd freshId now =>
    let (st', out) := handle_core_command st cmd freshId now
    (st', out, .cont)
  | .sweep now =>
    let (st', out) := sweep_expired st now
    (st', out, .cont)
  | .statusPush frame relay now =>
    let (st', out) := status_push_check st frame relay now
    (st', out, .cont)
  | .heartbeat now => heartbeat_check st now
  | .readTimeout => (st, [], .cont)
  | .readFrameError tooLarge msg now => handle_read_frame_error st tooLarge msg now
  | .incoming env frame relay now => handle_incoming st env frame relay now

/-- Run the session loop over a sequence of events, stopping at the first
terminating step (the Rust `return Ok(())`); returns the final state, the
concatenated outputs, and whether the session terminated. -/
def run_session : SessionState → List Event → SessionState × List Output × Bool
  | st, [] => (st, [], false)
  | st, e :: es =>
    match session_step st e with
    | (st', out, .cont) =>
      let (st'', outs, term) := run_session st' es
      (st'', out ++ outs, term)
    | (st', out, .terminated) => (st', out, true)

/-- The exact set of setting keys accepted by
`SessionOverrides::apply_setting_if_changed`. -/
def SETTING_KEYS : List String :=
  ["auto_scene_switch", "low_quality_fallback", "manual_override", "chat_bot", "alerts"]

/-- Number of entries of the pending table with the given key. -/
def keyCount (m : List (String × PendingSwitchScene)) (k : String) : Nat :=
  (m.filter (fun kv => kv.1 = k)).length

/-- Whether an output is a terminal debug-mirror update (`ok`, `error` or
`timeout`) for the given request id; the `unknown_request` update is not
terminal. -/
def isTerminalResultFor (k : String) : Output → Bool
  | .debug (.switchResult rid status _) =>
    rid = k && (status = "ok" || status = "error" || status = "timeout")
  | _ => false

/-- Number of terminal debug-mirror updates for the given request id in an
output sequence. -/
def terminalResultCount (outs : List Output) (k : String) : Nat :=
  (outs.filter (isTerminalResultFor k)).length

/-- The generated request ids of the `coreCmd` events of a trace, in order. -/
def commandFreshIds : List Event → List String
  | [] => []
  | .coreCmd _ freshId _ :: es => freshId :: commandFreshIds es
  | _ :: es => commandFreshIds es

/-- A domain-error inbound frame: a well-versioned `set_mode_request` with an
invalid mode string, or a well-versioned `set_setting_request` with an
unknown key. -/
def DomainErrorEvent : Event → Prop
  | .incoming env _ _ _ =>
    env.v = IPC_PROTOCOL_VERSION ∧
      ((∃ req, env.payload = .vSetMode req ∧ env.message_type = "set_mode_request" ∧
          req.mode ≠ "studio" ∧ req.mode ≠ "irl") ∨
       (∃ req, env.payload = .vSetSetting req ∧ env.message_type = "set_setting_request" ∧
          req.key ∉ SETTING_KEYS))
  | _ => False

/-- A telemetry frame used in concrete instantiations. -/
def exFrame : TelemetryFrame :=
  { health := 1
    obs := { connected := true }
    network := { latency_ms := 42 }
    streams := [{ bitrate_kbps := 2222 }] }

/-- A `ping` envelope used in concrete instantiations. -/
def exPingEnv : Envelope IpcValue :=
  { v := 1, id := "m-ping", ts_unix_ms := 0, message_type := "ping"
    priority := .normal, payload := .vPing { nonce := "n" } }

/-- A valid `hello` envelope used in concrete instantiations. -/
def exHelloEnv : Envelope IpcValue :=
  { v := 1, id := "m-hello", ts_unix_ms := 0, message_type := "hello"
    priority := .high
    payload := .vHello
      { plugin_version := "0.0.3", protocol_version := 1, obs_pid := 1234
        capabilities := ["dock"] } }

/-- A session state in the `Running` phase used in concrete instantiations. -/
def exRunningState : SessionState :=
  { initialSessionState 0 with handshakeComplete := true }

def c3WitnessEvents : List Event :=
  [Event.incoming exHelloEnv exFrame none 0,
   Event.coreCmd (.switchScene "BRB" "auto_failover" 200) "R1" 10,
   Event.sweep 400,
   Event.incoming
     { v := 1, id := "m-ack", ts_unix_ms := 0, message_type := "scene_switch_result"
       priority := .high
       payload := .vSceneSwitchResult { request_id := "R1", ok := true, error := none } }
     exFrame none 500]

def exRelayGrace : RelaySession :=
  { status := "grace", region := some "us-west-2"
    timers := some { grace_remaining_seconds := some 321 } }

def exBadSettingEnv : Envelope IpcValue :=
  { v := 1, id := "m-set", ts_unix_ms := 0, message_type := "set_setting_request"
    priority := .high, payload := .vSetSetting { key := "bogus", value := true } }

def exSetModeIrlEnv1 : Envelope IpcValue :=
  { v := 1, id := "m-irl-1", ts_unix_ms := 0, message_type := "set_mode_request"
    priority := .high, payload := .vSetMode { mode := "irl" } }

def exSetModeIrlEnv2 : Envelope IpcValue :=
  { v := 1, id := "m-irl-2", ts_unix_ms := 0, message_type := "set_mode_request"
    priority := .high, payload := .vSetMode { mode := "irl" } }

def exFatFrame : TelemetryFrame :=
  { health := 1
    obs := { connected := true }
    network := { latency_ms := 0 }
    streams := [{ bitrate_kbps := 4294967295 }, { bitrate_kbps := 5 }] }

def exBadModeEnv : Envelope IpcValue :=
  { v := 1, id := "m-mode", ts_unix_ms := 0, message_type := "set_mode_request"
    priority := .high, payload := .vSetMode { mode := "weird" } }

/-- C2: the derived state mode is `degraded` iff the frame's `obs_connected`
is false; when connected, the relay status string "provisioning" / "active" /
"grace" maps to `irl_connecting` / `irl_active` / `irl_grace` and anything
else (including an absent relay record) to `studio`; and the snapshot's
`mode` is `irl` exactly when the state mode is one of the `irl_*` values,
unless `overrides.mode` is set, in which case the override value is used. -/
theorem c2_state_mode_and_mode_derivation (f : TelemetryFrame) (r : Option RelaySession) (o : SessionOverrides) :
    (derive_state_mode f r = .degraded ↔ f.obs.connected = false)
    ∧ (f.obs.connected = true → ∀ s, r = some s →
        derive_state_mode f r =
          (if s.status = "provisioning" then .irlConnecting
           else if s.status = "active" then .irlActive
           else if s.status = "grace" then .irlGrace
           else .studio))
    ∧ (f.obs.connected = true → r = none → derive_state_mode f r = .studio)
    ∧ (o.mode = none →
        ((build_status_snapshot_with_overrides f r o).mode = .irl ↔
          (derive_state_mode f r = .irlConnecting ∨ derive_state_mode f r = .irlActive ∨
            derive_state_mode f r = .irlGrace)))
    ∧ (∀ m, o.mode = some m → (build_status_snapshot_with_overrides f r o).mode = m) := by
  have hmode : (build_status_snapshot_with_overrides f r o).mode =
      (match o.mode with
       | some m => m
       | none =>
         match derive_state_mode f r with
         | .irlConnecting | .irlActive | .irlGrace => SnapshotMode.irl
         | _ => .studio) := rfl
  refine ⟨?_, ?_, ?_, ?_, ?_⟩
  · unfold derive_state_mode
    cases hc : f.obs.connected with
    | false => simp
    | true =>
      simp only [Bool.true_eq_false, if_false]
      cases r with
      | none => simp
      | some s =>
        constructor
        · intro h
          revert h
          split
          · split
            · simp
            · split
              · simp
              · split <;> simp
          · simp
        · intro h
          cases h
  · intro hc s hr
    subst hr
    unfold derive_state_mode
    simp [hc]
  · intro hc hr
    subst hr
    unfold derive_state_mode
    simp [hc]
  · intro hnone
    rw [hmode, hnone]
    cases hd : derive_state_mode f r <;> simp
  · intro m hm
    rw [hmode, hm]

theorem bitrate_foldl_eq_min (xs : List StreamOutput) : ∀ acc : Nat, acc ≤ 2 ^ 32 - 1 →
    xs.foldl (fun a s => u32SaturatingAdd a s.bitrate_kbps) acc
      = min (acc + (xs.map (fun s => s.bitrate_kbps)).sum) (2 ^ 32 - 1) := by
  induction xs with
  | nil => intro acc h; simp only [List.foldl_nil, List.map_nil, List.sum_nil]; omega
  | cons x xs ih =>
    intro acc h
    simp only [List.foldl_cons, List.map_cons, List.sum_cons]
    rw [ih (u32SaturatingAdd acc x.bitrate_kbps) (by simp only [u32SaturatingAdd]; omega)]
    simp only [u32SaturatingAdd]
    omega

/-- C9: the snapshot's `bitrate_kbps` is the saturating sum of
`bitrate_kbps` over all entries of `streams`: it equals the true sum capped
at `2^32 - 1` (so it never wraps), and it is `0` for an empty list. -/
theorem c9_saturating_bitrate (f : TelemetryFrame) (r : Option RelaySession) (o : SessionOverrides) :
    (build_status_snapshot_with_overrides f r o).bitrate_kbps
        = min ((f.streams.map (fun s => s.bitrate_kbps)).sum) (2 ^ 32 - 1)
    ∧ (build_status_snapshot_with_overrides f r o).bitrate_kbps ≤ 2 ^ 32 - 1
    ∧ (f.streams = [] → (build_status_snapshot_with_overrides f r o).bitrate_kbps = 0) := by
  have hb : (build_status_snapshot_with_overrides f r o).bitrate_kbps
      = f.streams.foldl (fun a s => u32SaturatingAdd a s.bitrate_kbps) 0 := rfl
  rw [hb, bitrate_foldl_eq_min f.streams 0 (by omega)]
  refine ⟨by omega, by omega, ?_⟩
  intro h
  simp [h]

theorem dropOldFront_sorted (now : Int) : ∀ l : List Int, l.Sorted (· ≤ ·) →
    dropOldFront l now = l.filter (fun t => now - t ≤ PROTOCOL_ERROR_WINDOW_MS) := by
  intro l
  induction l with
  | nil => intro _; rfl
  | cons f rest ih =>
    intro hl
    show (if now - f > PROTOCOL_ERROR_WINDOW_MS then dropOldFront rest now else f :: rest)
        = List.filter (fun t => decide (now - t ≤ PROTOCOL_ERROR_WINDOW_MS)) (f :: rest)
    rw [List.filter_cons]
    by_cases h : now - f > PROTOCOL_ERROR_WINDOW_MS
    · rw [if_pos h, if_neg (by simp; omega), ih hl.of_cons]
    · rw [if_neg h, if_pos (by simp; omega)]
      have hrest : List.filter (fun t => decide (now - t ≤ PROTOCOL_ERROR_WINDOW_MS)) rest = rest := by
        rw [List.filter_eq_self]
        intro a ha
        have := List.rel_of_sorted_cons hl a ha
        simp
        omega
      rw [hrest]

/-- C4: `record_and_should_reset` appends the current monotonic instant,
drops from the front every recorded instant older than 10 seconds relative
to `now` (given that instants were recorded in nondecreasing order), and
signals a session reset iff the number of remaining instants exceeds 5; in
particular, when all previous errors are within the window, the reset signal
fires iff this is at least the sixth error. -/
theorem c4_protocol_error_tracker (recent : List Int) (now : Int)
    (hsorted : recent.Sorted (· ≤ ·)) (hnow : ∀ t ∈ recent, t ≤ now) :
    (record_and_should_reset recent now).1
        = (recent ++ [now]).filter (fun t => now - t ≤ PROTOCOL_ERROR_WINDOW_MS)
    ∧ ((record_and_should_reset recent now).2 = true ↔
        (record_and_should_reset recent now).1.length > PROTOCOL_ERROR_RESET_THRESHOLD)
    ∧ ((∀ t ∈ recent, now - t ≤ PROTOCOL_ERROR_WINDOW_MS) →
        ((record_and_should_reset recent now).1 = recent ++ [now]
         ∧ ((record_and_should_reset recent now).2 = true ↔
              recent.length + 1 > PROTOCOL_ERROR_RESET_THRESHOLD))) := by
  have happ : (recent ++ [now]).Sorted (· ≤ ·) := by
    rw [List.Sorted, List.pairwise_append]
    exact ⟨hsorted, List.pairwise_singleton _ _, by intro a ha b hb; simp at hb; subst hb; exact hnow a ha⟩
  have h1 : (record_and_should_reset recent now).1
      = (recent ++ [now]).filter (fun t => now - t ≤ PROTOCOL_ERROR_WINDOW_MS) := by
    show dropOldFront (recent ++ [now]) now = _
    exact dropOldFront_sorted now _ happ
  refine ⟨h1, by simp [record_and_should_reset], ?_⟩
  intro hall
  have hfull : (recent ++ [now]).filter (fun t => now - t ≤ PROTOCOL_ERROR_WINDOW_MS)
      = recent ++ [now] := by
    rw [List.filter_eq_self]
    intro a ha
    simp at ha
    rcases ha with ha | ha
    · simpa using hall a ha
    · subst ha; simp [PROTOCOL_ERROR_WINDOW_MS]
  constructor
  · rw [h1, hfull]
  · rw [show (record_and_should_reset recent now).2
        = decide ((record_and_should_reset recent now).1.length > PROTOCOL_ERROR_RESET_THRESHOLD) from rfl]
    rw [h1, hfull]
    simp

/-- C5: the frame reader fails with `frameTooLarge` iff the decoded 4-byte
little-endian length prefix exceeds 65536, and with `decodeFailed` when the
body bytes do not decode as a MessagePack envelope; the frame writer fails
without writing anything when the encoded size exceeds 65536, so every
outbound frame actually written has encoded length at most 65536 bytes. -/
theorem c5_framing_codec (dec : List Nat → Option (Envelope IpcValue)) (input : List Nat)
    (len : Nat) (rest : List Nat) (hlen : readU32LE input = some (len, rest)) :
    MAX_FRAME_SIZE = 65536
    ∧ ((∃ n, read_frame dec input = .error (.frameTooLarge n)) ↔ len > 65536)
    ∧ (len > 65536 → read_frame dec input = .error (.frameTooLarge len))
    ∧ (len ≤ 65536 → len ≤ rest.length → dec (rest.take len) = none →
        read_frame dec input = .error .decodeFailed)
    ∧ (∀ encoded : List Nat, encoded.length > 65536 → write_frame encoded = none)
    ∧ (∀ encoded out, write_frame encoded = some out →
        encoded.length ≤ 65536 ∧ readU32LE out = some (encoded.length, encoded)) := by
  have hmax : MAX_FRAME_SIZE = 65536 := rfl
  have hrf : read_frame dec input =
      (if len > MAX_FRAME_SIZE then .error (.frameTooLarge len)
       else if rest.length < len then .error .endOfStream
       else match dec (rest.take len) with
         | some env => .ok env
         | none => .error .decodeFailed) := by
    rw [read_frame, hlen]
  refine ⟨hmax, ⟨?_, ?_⟩, ?_, ?_, ?_, ?_⟩
  · rintro ⟨n, hn⟩
    rw [hrf] at hn
    by_contra hgt
    rw [if_neg (by omega)] at hn
    by_cases hr : rest.length < len
    · rw [if_pos hr] at hn; cases hn
    · rw [if_neg hr] at hn
      revert hn
      cases dec (rest.take len) <;> intro hn <;> cases hn
  · intro hgt
    exact ⟨len, by rw [hrf, if_pos (by omega)]⟩
  · intro hgt
    rw [hrf, if_pos (by omega)]
  · intro hle hbody hdec
    rw [hrf, if_neg (by omega), if_neg (by omega), hdec]
  · intro encoded hgt
    rw [write_frame, if_pos (by omega)]
  · intro encoded out hw
    rw [write_frame] at hw
    by_cases hgt : encoded.length > MAX_FRAME_SIZE
    · rw [if_pos hgt] at hw; cases hw
    · rw [if_neg hgt] at hw
      refine ⟨by omega, ?_⟩
      cases hw
      show some (encoded.length % 256 + 256 * (encoded.length / 256 % 256)
          + 65536 * (encoded.length / 65536 % 256)
          + 16777216 * (encoded.length / 16777216 % 256), encoded) = _
      have : encoded.length % 256 + 256 * (encoded.length / 256 % 256)
          + 65536 * (encoded.length / 65536 % 256)
          + 16777216 * (encoded.length / 16777216 % 256) = encoded.length := by
        have h1 : encoded.length ≤ 65536 := by
          have : MAX_FRAME_SIZE = 65536 := rfl
          omega
        omega
      rw [this]

theorem apply_setting_unknown (o : SessionOverrides) (key : String) (value : Bool)
    (h : key ∉ SETTING_KEYS) :
    apply_setting_if_changed o key value = .error () := by
  simp [SETTING_KEYS] at h
  obtain ⟨h1, h2, h3, h4, h5⟩ := h
  simp [apply_setting_if_changed, h1, h2, h3, h4, h5]

/-- C7: a `set_setting_request` whose key is not one of the five known
setting keys produces exactly one `protocol_error` with code
`invalid_payload` whose `related_message_id` equals the request envelope's
id, leaves the whole session state (in particular every override field)
unchanged, and does not terminate the session. -/
theorem c7_unknown_setting_key (st : SessionState) (env : Envelope IpcValue)
    (req : SetSettingRequestPayload) (frame : TelemetryFrame)
    (relay : Option RelaySession) (now : Int)
    (hv : env.v = IPC_PROTOCOL_VERSION)
    (hty : env.message_type = "set_setting_request")
    (hp : env.payload = .vSetSetting req)
    (hkey : req.key ∉ SETTING_KEYS) :
    handle_incoming st env frame relay now
      = (st, [Output.frame (OutFrame.protocolError .invalidPayload
          ("Unsupported setting key for set_setting_request: " ++ req.key)
          (some env.id) .high)], .cont) := by
  simp only [handle_incoming, hv, hty, hp, decodeSetSetting,
    apply_setting_unknown st.sessionOverrides req.key req.value hkey]
  rw [if_neg (by decide), if_neg (by decide), if_neg (by decide), if_neg (by decide),
    if_neg (by decide), if_pos trivial]

theorem hi_ping (st : SessionState) (env : Envelope IpcValue) (p : PingPayload)
    (frame : TelemetryFrame) (relay : Option RelaySession) (now : Int)
    (hv : env.v = IPC_PROTOCOL_VERSION) (hty : env.message_type = "ping")
    (hp : env.payload = .vPing p) :
    handle_incoming st env frame relay now
      = ({ st with lastPingAt := now },
         [Output.frame (OutFrame.pong p.nonce .normal)], .cont) := by
  simp only [handle_incoming, hv, hty, hp, decodePing]
  rw [if_neg (by decide), if_neg (by decide), if_pos trivial]

theorem hi_hello_ok (st : SessionState) (env : Envelope IpcValue) (h : HelloPayload)
    (frame : TelemetryFrame) (relay : Option RelaySession) (now : Int)
    (hv : env.v = IPC_PROTOCOL_VERSION) (hty : env.message_type = "hello")
    (hp : env.payload = .vHello h) (hver : h.protocol_version = IPC_PROTOCOL_VERSION) :
    handle_incoming st env frame relay now
      = ({ st with
             handshakeComplete := true
             lastPingAt := now
             lastStatusPushAt := now - STATUS_PUSH_INTERVAL_MS },
         [Output.frame (OutFrame.helloAck
            { core_version := CORE_VERSION
              protocol_version := IPC_PROTOCOL_VERSION
              capabilities := ["state_machine", "aegis", "ipc_stub"] } .high)],
         .cont) := by
  simp only [handle_incoming, hv, hty, hp, decodeHello, hver]
  rw [if_neg (by decide), if_pos trivial, if_neg (by simp)]

theorem hi_set_mode_invalid (st : SessionState) (env : Envelope IpcValue)
    (req : SetModeRequestPayload) (frame : TelemetryFrame) (relay : Option RelaySession)
    (now : Int)
    (hv : env.v = IPC_PROTOCOL_VERSION) (hty : env.message_type = "set_mode_request")
    (hp : env.payload = .vSetMode req)
    (hm1 : req.mode ≠ "studio") (hm2 : req.mode ≠ "irl") :
    handle_incoming st env frame relay now
      = (st, [Output.frame (OutFrame.protocolError .invalidPayload
          ("Invalid mode for set_mode_request: " ++ req.mode) (some env.id) .high)],
         .cont) := by
  simp only [handle_incoming, hv, hty, hp, decodeSetMode]
  rw [if_neg (by decide), if_neg (by decide), if_neg (by decide), if_pos trivial]
  have hno : ¬(req.mode = "studio" ∨ req.mode = "irl") := by simp [hm1, hm2]
  rw [if_neg hno, if_neg (by decide)]

theorem hi_set_mode_valid (st : SessionState) (env : Envelope IpcValue)
    (req : SetModeRequestPayload) (frame : TelemetryFrame) (relay : Option RelaySession)
    (now : Int) (m : SnapshotMode)
    (hv : env.v = IPC_PROTOCOL_VERSION) (hty : env.message_type = "set_mode_request")
    (hp : env.payload = .vSetMode req)
    (hm : (req.mode = "studio" ∧ m = .studio) ∨ (req.mode = "irl" ∧ m = .irl)) :
    handle_incoming st env frame relay now
      = (if st.sessionOverrides.mode = some m then (st, [], .cont)
         else
           ({ st with
                sessionOverrides := { st.sessionOverrides with mode := some m }
                lastStatusPushAt := now },
            [Output.frame (OutFrame.userNotice .info
               ("Dock mode override set to " ++ req.mode) .normal),
             Output.frame (OutFrame.statusSnapshot
               (build_status_snapshot_with_overrides frame relay
                 { st.sessionOverrides with mode := some m }) .high)],
            .cont)) := by
  simp only [handle_incoming, hv, hty, hp, decodeSetMode]
  rw [if_neg (by decide), if_neg (by decide), if_neg (by decide), if_pos trivial]
  have hyes : req.mode = "studio" ∨ req.mode = "irl" := by
    rcases hm with ⟨hs, _⟩ | ⟨hs, _⟩ <;> simp [hs]
  rw [if_pos hyes]
  have hnorm : (if req.mode = "studio" then SnapshotMode.studio else SnapshotMode.irl) = m := by
    rcases hm with ⟨hs, hm⟩ | ⟨hs, hm⟩ <;> subst hm <;> simp [hs]
  rw [hnorm, if_neg (by decide)]
  simp only [set_mode_if_changed]
  by_cases hcur : st.sessionOverrides.mode = some m
  · simp [hcur]
  · simp [hcur]

theorem hi_version_mismatch (st : SessionState) (env : Envelope IpcValue)
    (frame : TelemetryFrame) (relay : Option RelaySession) (now : Int)
    (hv : env.v ≠ IPC_PROTOCOL_VERSION) :
    handle_incoming st env frame relay now
      = (st,
         [Output.frame (OutFrame.userNotice .error "IPC protocol version mismatch" .high),
          Output.debug (.notice "IPC envelope version mismatch")],
         .terminated) := by
  rw [handle_incoming, if_pos hv]

theorem hi_hello_mismatch (st : SessionState) (env : Envelope IpcValue) (h : HelloPayload)
    (frame : TelemetryFrame) (relay : Option RelaySession) (now : Int)
    (hv : env.v = IPC_PROTOCOL_VERSION) (hty : env.message_type = "hello")
    (hp : env.payload = .vHello h) (hver : h.protocol_version ≠ IPC_PROTOCOL_VERSION) :
    handle_incoming st env frame relay now
      = (st,
         [Output.frame (OutFrame.userNotice .error "Protocol mismatch" .high),
          Output.debug (.notice "IPC protocol mismatch")],
         .terminated) := by
  simp only [handle_incoming, hv, hty, hp, decodeHello]
  rw [if_neg (by decide), if_pos trivial, if_pos hver]

theorem hi_hello_decode_fail (st : SessionState) (env : Envelope IpcValue)
    (frame : TelemetryFrame) (relay : Option RelaySession) (now : Int)
    (hv : env.v = IPC_PROTOCOL_VERSION) (hty : env.message_type = "hello")
    (hp : decodeHello env.payload = none) :
    handle_incoming st env frame relay now = onPayloadDecodeFailure st env.id now := by
  simp only [handle_incoming, hv, hty, hp]
  rw [if_neg (by decide), if_pos trivial]

theorem hi_ping_decode_fail (st : SessionState) (env : Envelope IpcValue)
    (frame : TelemetryFrame) (relay : Option RelaySession) (now : Int)
    (hv : env.v = IPC_PROTOCOL_VERSION) (hty : env.message_type = "ping")
    (hp : decodePing env.payload = none) :
    handle_incoming st env frame relay now = onPayloadDecodeFailure st env.id now := by
  simp only [handle_incoming, hv, hty, hp]
  rw [if_neg (by decide), if_neg (by decide), if_pos trivial]

theorem hi_request_status (st : SessionState) (env : Envelope IpcValue)
    (frame : TelemetryFrame) (relay : Option RelaySession) (now : Int)
    (hv : env.v = IPC_PROTOCOL_VERSION) (hty : env.message_type = "request_status")
    (hp : env.payload = .vRequestStatus) :
    handle_incoming st env frame relay now
      = ({ st with lastStatusPushAt := now },
         [Output.frame (OutFrame.statusSnapshot
            (build_status_snapshot_with_overrides frame relay st.sessionOverrides) .high)],
         .cont) := by
  simp only [handle_incoming, hv, hty, hp, decodeRequestStatus]
  rw [if_neg (by decide), if_neg (by decide), if_neg (by decide), if_pos trivial]

theorem hi_request_status_decode_fail (st : SessionState) (env : Envelope IpcValue)
    (frame : TelemetryFrame) (relay : Option RelaySession) (now : Int)
    (hv : env.v = IPC_PROTOCOL_VERSION) (hty : env.message_type = "request_status")
    (hp : decodeRequestStatus env.payload = none) :
    handle_incoming st env frame relay now = onPayloadDecodeFailure st env.id now := by
  simp only [handle_incoming, hv, hty, hp]
  rw [if_neg (by decide), if_neg (by decide), if_neg (by decide), if_pos trivial]

theorem hi_set_mode_decode_fail (st : SessionState) (env : Envelope IpcValue)
    (frame : TelemetryFrame) (relay : Option RelaySession) (now : Int)
    (hv : env.v = IPC_PROTOCOL_VERSION) (hty : env.message_type = "set_mode_request")
    (hp : decodeSetMode env.payload = none) :
    handle_incoming st env frame relay now = onPayloadDecodeFailure st env.id now := by
  simp only [handle_incoming, hv, hty, hp]
  rw [if_neg (by decide), if_neg (by decide), if_neg (by decide), if_pos trivial,
    if_neg (by decide)]

theorem hi_set_setting_unknown (st : SessionState) (env : Envelope IpcValue)
    (req : SetSettingRequestPayload) (frame : TelemetryFrame)
    (relay : Option RelaySession) (now : Int)
    (hv : env.v = IPC_PROTOCOL_VERSION) (hty : env.message_type = "set_setting_request")
    (hp : env.payload = .vSetSetting req) (hkey : req.key ∉ SETTING_KEYS) :
    handle_incoming st env frame relay now
      = (st, [Output.frame (OutFrame.protocolError .invalidPayload
          ("Unsupported setting key for set_setting_request: " ++ req.key)
          (some env.id) .high)], .cont) := by
  simp only [handle_incoming, hv, hty, hp, decodeSetSetting,
    apply_setting_unknown st.sessionOverrides req.key req.value hkey]
  rw [if_neg (by decide), if_neg (by decide), if_neg (by decide), if_neg (by decide),
    if_neg (by decide), if_pos trivial]

theorem hi_set_setting_ok (st : SessionState) (env : Envelope IpcValue)
    (req : SetSettingRequestPayload) (frame : TelemetryFrame)
    (relay : Option RelaySession) (now : Int) (o' : SessionOverrides) (changed : Bool)
    (hv : env.v = IPC_PROTOCOL_VERSION) (hty : env.message_type = "set_setting_request")
    (hp : env.payload = .vSetSetting req)
    (happ : apply_setting_if_changed st.sessionOverrides req.key req.value = .ok (o', changed)) :
    handle_incoming st env frame relay now
      = (if changed = false then (st, [], .cont)
         else
           ({ st with sessionOverrides := o', lastStatusPushAt := now },
            [Output.frame (OutFrame.userNotice .info
               ("Dock setting '" ++ req.key ++ "' set to "
                 ++ (if req.value then "true" else "false")) .normal),
             Output.frame (OutFrame.statusSnapshot
               (build_status_snapshot_with_overrides frame relay o') .high)],
            .cont)) := by
  simp only [handle_incoming, hv, hty, hp, decodeSetSetting, happ]
  rw [if_neg (by decide), if_neg (by decide), if_neg (by decide), if_neg (by decide),
    if_neg (by decide), if_pos trivial]

theorem hi_set_setting_decode_fail (st : SessionState) (env : Envelope IpcValue)
    (frame : TelemetryFrame) (relay : Option RelaySession) (now : Int)
    (hv : env.v = IPC_PROTOCOL_VERSION) (hty : env.message_type = "set_setting_request")
    (hp : decodeSetSetting env.payload = none) :
    handle_incoming st env frame relay now = onPayloadDecodeFailure st env.id now := by
  simp only [handle_incoming, hv, hty, hp]
  rw [if_neg (by decide), if_neg (by decide), if_neg (by decide), if_neg (by decide),
    if_neg (by decide), if_pos trivial]

theorem hi_scene_result_unknown (st : SessionState) (env : Envelope IpcValue)
    (result : SceneSwitchResultPayload) (frame : TelemetryFrame)
    (relay : Option RelaySession) (now : Int)
    (hv : env.v = IPC_PROTOCOL_VERSION) (hty : env.message_type = "scene_switch_result")
    (hp : env.payload = .vSceneSwitchResult result)
    (hlk : pendingLookup st.pendingSwitches result.request_id = none) :
    handle_incoming st env frame relay now
      = (st,
         [Output.debug (.switchResult result.request_id "unknown_request" result.error),
          Output.debug (.notice "scene_switch_result for unknown request")],
         .cont) := by
  simp only [handle_incoming, hv, hty, hp, decodeSceneSwitchResult, hlk]
  rw [if_neg (by decide), if_neg (by decide), if_neg (by decide), if_neg (by decide),
    if_neg (by decide), if_neg (by decide), if_pos trivial]

theorem hi_scene_result_known (st : SessionState) (env : Envelope IpcValue)
    (result : SceneSwitchResultPayload) (frame : TelemetryFrame)
    (relay : Option RelaySession) (now : Int) (pending : PendingSwitchScene)
    (hv : env.v = IPC_PROTOCOL_VERSION) (hty : env.message_type = "scene_switch_result")
    (hp : env.payload = .vSceneSwitchResult result)
    (hlk : pendingLookup st.pendingSwitches result.request_id = some pending) :
    handle_incoming st env frame relay now
      = ({ st with pendingSwitches := pendingRemove st.pendingSwitches result.request_id },
         [Output.debug (.pendingCount
            (pendingRemove st.pendingSwitches result.request_id).length),
          Output.debug (.switchResult result.request_id
            (if result.ok then "ok" else "error") result.error)],
         .cont) := by
  simp only [handle_incoming, hv, hty, hp, decodeSceneSwitchResult, hlk]
  rw [if_neg (by decide), if_neg (by decide), if_neg (by decide), if_neg (by decide),
    if_neg (by decide), if_neg (by decide), if_pos trivial]

theorem hi_scene_result_decode_fail (st : SessionState) (env : Envelope IpcValue)
    (frame : TelemetryFrame) (relay : Option RelaySession) (now : Int)
    (hv : env.v = IPC_PROTOCOL_VERSION) (hty : env.message_type = "scene_switch_result")
    (hp : decodeSceneSwitchResult env.payload = none) :
    handle_incoming st env frame relay now = onPayloadDecodeFailure st env.id now := by
  simp only [handle_incoming, hv, hty, hp]
  rw [if_neg (by decide), if_neg (by decide), if_neg (by decide), if_neg (by decide),
    if_neg (by decide), if_neg (by decide), if_pos trivial]

theorem hi_obs_shutdown (st : SessionState) (env : Envelope IpcValue)
    (notice : ObsShutdownNoticePayload) (frame : TelemetryFrame)
    (relay : Option RelaySession) (now : Int)
    (hv : env.v = IPC_PROTOCOL_VERSION) (hty : env.message_type = "obs_shutdown_notice")
    (hp : env.payload = .vObsShutdown notice) :
    handle_incoming st env frame relay now
      = (st, [Output.debug (.notice ("obs shutdown notice: " ++ notice.reason))],
         .terminated) := by
  simp only [handle_incoming, hv, hty, hp, decodeObsShutdown]
  rw [if_neg (by decide), if_neg (by decide), if_neg (by decide), if_neg (by decide),
    if_neg (by decide), if_neg (by decide), if_neg (by decide), if_pos trivial]

theorem hi_obs_shutdown_decode_fail (st : SessionState) (env : Envelope IpcValue)
    (frame : TelemetryFrame) (relay : Option RelaySession) (now : Int)
    (hv : env.v = IPC_PROTOCOL_VERSION) (hty : env.message_type = "obs_shutdown_notice")
    (hp : decodeObsShutdown env.payload = none) :
    handle_incoming st env frame relay now = onPayloadDecodeFailure st env.id now := by
  simp only [handle_incoming, hv, hty, hp]
  rw [if_neg (by decide), if_neg (by decide), if_neg (by decide), if_neg (by decide),
    if_neg (by decide), if_neg (by decide), if_neg (by decide), if_pos trivial]

theorem hi_unknown_type (st : SessionState) (env : Envelope IpcValue)
    (frame : TelemetryFrame) (relay : Option RelaySession) (now : Int)
    (hv : env.v = IPC_PROTOCOL_VERSION)
    (h1 : env.message_type ≠ "hello") (h2 : env.message_type ≠ "ping")
    (h3 : env.message_type ≠ "request_status") (h4 : env.message_type ≠ "set_mode_request")
    (h5 : env.message_type ≠ "set_setting_request")
    (h6 : env.message_type ≠ "scene_switch_result")
    (h7 : env.message_type ≠ "obs_shutdown_notice") :
    handle_incoming st env frame relay now
      = ({ st with protocolErrors := (record_and_should_reset st.protocolErrors now).1 },
         [Output.frame (OutFrame.protocolError .unknownType
            ("Unsupported IPC command in core stub: " ++ env.message_type)
            (some env.id) .high),
          Output.debug (.notice ("Unsupported IPC command: " ++ env.message_type))],
         if (record_and_should_reset st.protocolErrors now).2 then .terminated
         else .cont) := by
  simp only [handle_incoming, hv]
  rw [if_neg (by decide), if_neg h1, if_neg h2, if_neg h3, if_neg h4, if_neg h5,
    if_neg h6, if_neg h7]

theorem keyCount_pendingRemove_self (m : List (String × PendingSwitchScene)) (k : String) :
    keyCount (pendingRemove m k) k = 0 := by
  unfold keyCount pendingRemove
  rw [List.filter_filter, List.length_eq_zero]
  apply List.filter_eq_nil_iff.mpr
  intro a _
  simp

theorem keyCount_pendingRemove_ne (m : List (String × PendingSwitchScene)) (k k' : String)
    (hne : k ≠ k') : keyCount (pendingRemove m k') k = keyCount m k := by
  unfold keyCount pendingRemove
  rw [List.filter_filter]
  congr 1
  apply List.filter_congr
  intro a _
  by_cases h : a.1 = k
  · have hak : a.1 ≠ k' := by rw [h]; exact hne
    simp [h, hak, hne]
  · simp [h]

theorem keyCount_pos_of_lookup_some (m : List (String × PendingSwitchScene)) (k : String)
    (v : PendingSwitchScene) (h : pendingLookup m k = some v) : 1 ≤ keyCount m k := by
  unfold pendingLookup at h
  cases hf : m.find? (fun kv => kv.1 = k) with
  | none => rw [hf] at h; cases h
  | some kv =>
    have hmem := List.mem_of_find?_eq_some hf
    have hpred := List.find?_some hf
    have hmf : kv ∈ m.filter (fun kv => decide (kv.1 = k)) :=
      List.mem_filter.mpr ⟨hmem, hpred⟩
    have hpos : 0 < (m.filter (fun kv => decide (kv.1 = k))).length :=
      List.length_pos.mpr (List.ne_nil_of_mem hmf)
    unfold keyCount
    omega

theorem keyCount_pendingInsert_self (m : List (String × PendingSwitchScene)) (k : String)
    (v : PendingSwitchScene) : keyCount (pendingInsert m k v) k = 1 := by
  unfold pendingInsert keyCount
  rw [List.filter_cons, if_pos (by simp)]
  have h0 := keyCount_pendingRemove_self m k
  unfold keyCount at h0
  simp only [List.length_cons]
  omega

theorem keyCount_pendingInsert_ne (m : List (String × PendingSwitchScene)) (k k' : String)
    (v : PendingSwitchScene) (hne : k ≠ k') :
    keyCount (pendingInsert m k' v) k = keyCount m k := by
  unfold pendingInsert keyCount
  rw [List.filter_cons, if_neg (by simp; exact fun hh => hne hh.symm)]
  have h0 := keyCount_pendingRemove_ne m k k' hne
  unfold keyCount at h0
  exact h0

theorem decodeHello_eq_some (v : IpcValue) (p : HelloPayload) :
    decodeHello v = some p ↔ v = .vHello p := by
  cases v <;> simp [decodeHello]

theorem decodePing_eq_some (v : IpcValue) (p : PingPayload) :
    decodePing v = some p ↔ v = .vPing p := by
  cases v <;> simp [decodePing]

theorem decodeRequestStatus_eq_some (v : IpcValue) (p : Unit) :
    decodeRequestStatus v = some p ↔ v = .vRequestStatus := by
  cases v <;> simp [decodeRequestStatus]

theorem decodeSetMode_eq_some (v : IpcValue) (p : SetModeRequestPayload) :
    decodeSetMode v = some p ↔ v = .vSetMode p := by
  cases v <;> simp [decodeSetMode]

theorem decodeSetSetting_eq_some (v : IpcValue) (p : SetSettingRequestPayload) :
    decodeSetSetting v = some p ↔ v = .vSetSetting p := by
  cases v <;> simp [decodeSetSetting]

theorem decodeSceneSwitchResult_eq_some (v : IpcValue) (p : SceneSwitchResultPayload) :
    decodeSceneSwitchResult v = some p ↔ v = .vSceneSwitchResult p := by
  cases v <;> simp [decodeSceneSwitchResult]

theorem decodeObsShutdown_eq_some (v : IpcValue) (p : ObsShutdownNoticePayload) :
    decodeObsShutdown v = some p ↔ v = .vObsShutdown p := by
  cases v <;> simp [decodeObsShutdown]

theorem terminalResultCount_append (o1 o2 : List Output) (k : String) :
    terminalResultCount (o1 ++ o2) k = terminalResultCount o1 k + terminalResultCount o2 k := by
  simp [terminalResultCount, List.filter_append]

theorem hi_account (st : SessionState) (env : Envelope IpcValue) (frame : TelemetryFrame)
    (relay : Option RelaySession) (now : Int) (k : String) :
    terminalResultCount (handle_incoming st env frame relay now).2.1 k
      + keyCount (handle_incoming st env frame relay now).1.pendingSwitches k
      ≤ keyCount st.pendingSwitches k := by
  by_cases hv : env.v = IPC_PROTOCOL_VERSION
  case neg =>
    rw [hi_version_mismatch st env frame relay now hv]
    simp [terminalResultCount, isTerminalResultFor]
  by_cases h1 : env.message_type = "hello"
  · cases hd : decodeHello env.payload with
    | none =>
      rw [hi_hello_decode_fail st env frame relay now hv h1 hd]
      simp [onPayloadDecodeFailure, terminalResultCount, isTerminalResultFor]
    | some hello =>
      have hp := (decodeHello_eq_some env.payload hello).mp hd
      by_cases hver : hello.protocol_version = IPC_PROTOCOL_VERSION
      · rw [hi_hello_ok st env hello frame relay now hv h1 hp hver]
        simp [terminalResultCount, isTerminalResultFor]
      · rw [hi_hello_mismatch st env hello frame relay now hv h1 hp hver]
        simp [terminalResultCount, isTerminalResultFor]
  by_cases h2 : env.message_type = "ping"
  · cases hd : decodePing env.payload with
    | none =>
      rw [hi_ping_decode_fail st env frame relay now hv h2 hd]
      simp [onPayloadDecodeFailure, terminalResultCount, isTerminalResultFor]
    | some p =>
      have hp := (decodePing_eq_some env.payload p).mp hd
      rw [hi_ping st env p frame relay now hv h2 hp]
      simp [terminalResultCount, isTerminalResultFor]
  by_cases h3 : env.message_type = "request_status"
  · cases hd : decodeRequestStatus env.payload with
    | none =>
      rw [hi_request_status_decode_fail st env frame relay now hv h3 hd]
      simp [onPayloadDecodeFailure, terminalResultCount, isTerminalResultFor]
    | some p =>
      have hp := (decodeRequestStatus_eq_some env.payload p).mp hd
      rw [hi_request_status st env frame relay now hv h3 hp]
      simp [terminalResultCount, isTerminalResultFor]
  by_cases h4 : env.message_type = "set_mode_request"
  · cases hd : decodeSetMode env.payload with
    | none =>
      rw [hi_set_mode_decode_fail st env frame relay now hv h4 hd]
      simp [onPayloadDecodeFailure, terminalResultCount, isTerminalResultFor]
    | some req =>
      have hp := (decodeSetMode_eq_some env.payload req).mp hd
      by_cases hm1 : req.mode = "studio"
      · rw [hi_set_mode_valid st env req frame relay now .studio hv h4 hp (Or.inl ⟨hm1, rfl⟩)]
        by_cases hcur : st.sessionOverrides.mode = some SnapshotMode.studio
        · rw [if_pos hcur]; simp [terminalResultCount, isTerminalResultFor]
        · rw [if_neg hcur]; simp [terminalResultCount, isTerminalResultFor]
      by_cases hm2 : req.mode = "irl"
      · rw [hi_set_mode_valid st env req frame relay now .irl hv h4 hp (Or.inr ⟨hm2, rfl⟩)]
        by_cases hcur : st.sessionOverrides.mode = some SnapshotMode.irl
        · rw [if_pos hcur]; simp [terminalResultCount, isTerminalResultFor]
        · rw [if_neg hcur]; simp [terminalResultCount, isTerminalResultFor]
      rw [hi_set_mode_invalid st env req frame relay now hv h4 hp hm1 hm2]
      simp [terminalResultCount, isTerminalResultFor]
  by_cases h5 : env.message_type = "set_setting_request"
  · cases hd : decodeSetSetting env.payload with
    | none =>
      rw [hi_set_setting_decode_fail st env frame relay now hv h5 hd]
      simp [onPayloadDecodeFailure, terminalResultCount, isTerminalResultFor]
    | some req =>
      have hp := (decodeSetSetting_eq_some env.payload req).mp hd
      cases happ : apply_setting_if_changed st.sessionOverrides req.key req.value with
      | error e =>
        cases e
        have hkey : req.key ∉ SETTING_KEYS := by
          intro hmem
          simp [SETTING_KEYS] at hmem
          rcases hmem with h | h | h | h | h <;>
            simp [apply_setting_if_changed, h] at happ <;>
            revert happ <;> split <;> intro happ <;> cases happ
        rw [hi_set_setting_unknown st env req frame relay now hv h5 hp hkey]
        simp [terminalResultCount, isTerminalResultFor]
      | ok pr =>
        rw [hi_set_setting_ok st env req frame relay now pr.1 pr.2 hv h5 hp (by rw [happ])]
        by_cases hch : pr.2 = false
        · rw [if_pos hch]; simp [terminalResultCount, isTerminalResultFor]
        · rw [if_neg hch]; simp [terminalResultCount, isTerminalResultFor]
  by_cases h6 : env.message_type = "scene_switch_result"
  · cases hd : decodeSceneSwitchResult env.payload with
    | none =>
      rw [hi_scene_result_decode_fail st env frame relay now hv h6 hd]
      simp [onPayloadDecodeFailure, terminalResultCount, isTerminalResultFor]
    | some result =>
      have hp := (decodeSceneSwitchResult_eq_some env.payload result).mp hd
      cases hlk : pendingLookup st.pendingSwitches result.request_id with
      | none =>
        rw [hi_scene_result_unknown st env result frame relay now hv h6 hp hlk]
        simp [terminalResultCount, isTerminalResultFor]
      | some pending =>
        rw [hi_scene_result_known st env result frame relay now pending hv h6 hp hlk]
        by_cases hk : result.request_id = k
        · subst hk
          have h1le := keyCount_pos_of_lookup_some _ _ _ hlk
          have h0 := keyCount_pendingRemove_self st.pendingSwitches result.request_id
          have htc : terminalResultCount
              [Output.debug (.pendingCount (pendingRemove st.pendingSwitches result.request_id).length),
               Output.debug (.switchResult result.request_id
                 (if result.ok then "ok" else "error") result.error)] result.request_id = 1 := by
            cases result.ok <;> simp [terminalResultCount, isTerminalResultFor]
          simp only [htc, h0]
          omega
        · have hne := keyCount_pendingRemove_ne st.pendingSwitches k result.request_id
            (fun hh => hk hh.symm)
          have htc : terminalResultCount
              [Output.debug (.pendingCount (pendingRemove st.pendingSwitches result.request_id).length),
               Output.debug (.switchResult result.request_id
                 (if result.ok then "ok" else "error") result.error)] k = 0 := by
            cases result.ok <;> simp [terminalResultCount, isTerminalResultFor, fun hh => hk hh]
          simp only [htc, hne]
          omega
  by_cases h7 : env.message_type = "obs_shutdown_notice"
  · cases hd : decodeObsShutdown env.payload with
    | none =>
      rw [hi_obs_shutdown_decode_fail st env frame relay now hv h7 hd]
      simp [onPayloadDecodeFailure, terminalResultCount, isTerminalResultFor]
    | some notice =>
      have hp := (decodeObsShutdown_eq_some env.payload notice).mp hd
      rw [hi_obs_shutdown st env notice frame relay now hv h7 hp]
      simp [terminalResultCount, isTerminalResultFor]
  rw [hi_unknown_type st env frame relay now hv h1 h2 h3 h4 h5 h6 h7]
  simp [terminalResultCount, isTerminalResultFor]

theorem sweepLoop_account (ids : List String) : ∀ (m : List (String × PendingSwitchScene))
    (k : String), terminalResultCount (sweepLoop m ids).2 k + keyCount (sweepLoop m ids).1 k
      ≤ keyCount m k := by
  induction ids with
  | nil => intro m k; simp [sweepLoop, terminalResultCount]
  | cons id rest ih =>
    intro m k
    cases hlk : pendingLookup m id with
    | none =>
      simp only [sweepLoop, sweepOne, hlk]
      simpa using ih m k
    | some expired =>
      simp only [sweepLoop, sweepOne, hlk]
      rw [terminalResultCount_append]
      by_cases hk : id = k
      · subst hk
        have h1le := keyCount_pos_of_lookup_some _ _ _ hlk
        have h0 := keyCount_pendingRemove_self m id
        have hrec := ih (pendingRemove m id) id
        have htc : terminalResultCount
            [Output.frame (OutFrame.userNotice .warn
               ("Scene switch to '" ++ expired.scene_name ++ "' timed out (request " ++ id ++ ")")
               .high),
             Output.debug (.pendingCount (pendingRemove m id).length),
             Output.debug (.switchResult id "timeout" none),
             Output.debug (.notice
               ("Scene switch '" ++ expired.scene_name ++ "' timed out (" ++ id ++ ")"))] id
            = 1 := by
          simp [terminalResultCount, isTerminalResultFor]
        rw [htc]
        omega
      · have hne := keyCount_pendingRemove_ne m k id (fun hh => hk hh.symm)
        have hrec := ih (pendingRemove m id) k
        have htc : terminalResultCount
            [Output.frame (OutFrame.userNotice .warn
               ("Scene switch to '" ++ expired.scene_name ++ "' timed out (request " ++ id ++ ")")
               .high),
             Output.debug (.pendingCount (pendingRemove m id).length),
             Output.debug (.switchResult id "timeout" none),
             Output.debug (.notice
               ("Scene switch '" ++ expired.scene_name ++ "' timed out (" ++ id ++ ")"))] k
            = 0 := by
          simp [terminalResultCount, isTerminalResultFor, fun hh => hk hh]
        rw [htc]
        omega

theorem commandFreshIds_cons (e : Event) (es : List Event) :
    commandFreshIds (e :: es) = commandFreshIds [e] ++ commandFreshIds es := by
  cases e <;> rfl

theorem step_account (st : SessionState) (e : Event) (k : String) :
    terminalResultCount (session_step st e).2.1 k
        + keyCount (session_step st e).1.pendingSwitches k
      ≤ keyCount st.pendingSwitches k + (commandFreshIds [e]).count k := by
  cases e with
  | coreCmd cmd freshId now =>
    cases cmd with
    | switchScene scene_name reason deadline_ms =>
      by_cases hh : st.handshakeComplete = false
      · simp only [session_step, handle_core_command, if_pos hh]
        simp [terminalResultCount]
      · simp only [session_step, handle_core_command, if_neg hh]
        have htc : terminalResultCount
            [Output.frame (OutFrame.switchScene
               { request_id := freshId, scene_name := scene_name, reason := reason
                 deadline_ms := deadline_ms } .critical),
             Output.debug (.pendingCount (pendingInsert st.pendingSwitches freshId
               { scene_name := scene_name, deadline_at := now + (deadline_ms : Int) }).length),
             Output.debug (.switchRequest
               { request_id := freshId, scene_name := scene_name, reason := reason
                 deadline_ms := deadline_ms })] k = 0 := by
          simp [terminalResultCount, isTerminalResultFor]
        rw [htc]
        by_cases hk : freshId = k
        · subst hk
          rw [keyCount_pendingInsert_self]
          have hcnt : (commandFreshIds [Event.coreCmd
              (CoreIpcCommand.switchScene scene_name reason deadline_ms) freshId now]).count
              freshId = 1 := by
            simp [commandFreshIds]
          rw [hcnt]
          omega
        · rw [keyCount_pendingInsert_ne _ _ _ _ (fun hh2 => hk hh2.symm)]
          have hcnt : (commandFreshIds [Event.coreCmd
              (CoreIpcCommand.switchScene scene_name reason deadline_ms) freshId now]).count k
              = 0 := by
            rw [List.count_eq_zero]
            simp [commandFreshIds]
            exact fun hh2 => hk hh2.symm
          rw [hcnt]
          omega
  | sweep now =>
    simp only [session_step, sweep_expired]
    have := sweepLoop_account
      ((st.pendingSwitches.filter (fun kv => now ≥ kv.2.deadline_at)).map Prod.fst)
      st.pendingSwitches k
    simpa using this
  | statusPush frame relay now =>
    simp only [session_step, status_push_check]
    split
    · simp [terminalResultCount, isTerminalResultFor]
    · simp [terminalResultCount]
  | heartbeat now =>
    simp only [session_step, heartbeat_check]
    split
    · simp [terminalResultCount, isTerminalResultFor]
    · simp [terminalResultCount]
  | readTimeout =>
    simp [session_step, terminalResultCount]
  | readFrameError tooLarge msg now =>
    simp only [session_step, handle_read_frame_error]
    simp [terminalResultCount, isTerminalResultFor]
  | incoming env frame relay now =>
    simp only [session_step]
    have := hi_account st env frame relay now k
    simpa using this

theorem run_session_account (events : List Event) : ∀ (st : SessionState) (k : String),
    terminalResultCount (run_session st events).2.1 k
      ≤ keyCount st.pendingSwitches k + (commandFreshIds events).count k := by
  induction events with
  | nil => intro st k; simp [run_session, terminalResultCount]
  | cons e es ih =>
    intro st k
    have hstep := step_account st e k
    have hcons : (commandFreshIds (e :: es)).count k
        = (commandFreshIds [e]).count k + (commandFreshIds es).count k := by
      rw [commandFreshIds_cons, List.count_append]
    rcases hs : session_step st e with ⟨st', out, ex⟩
    rw [hs] at hstep
    cases ex with
    | cont =>
      have hrec := ih st' k
      rcases hr : run_session st' es with ⟨st'', outs, term⟩
      rw [hr] at hrec
      simp only [run_session, hs, hr]
      rw [terminalResultCount_append, hcons]
      simp only at hstep hrec
      omega
    | terminated =>
      simp only [run_session, hs]
      rw [hcons]
      simp only at hstep
      omega

theorem apply_setting_known (o : SessionOverrides) (key : String) (value : Bool)
    (hkey : key ∈ SETTING_KEYS) :
    ∃ o' changed, apply_setting_if_changed o key value = .ok (o', changed)
      ∧ apply_setting_if_changed o' key value = .ok (o', false) := by
  simp [SETTING_KEYS] at hkey
  rcases hkey with h | h | h | h | h <;> subst h
  · by_cases hc : o.auto_scene_switch = some value
    · exact ⟨o, false, by simp +decide [apply_setting_if_changed, hc],
        by simp +decide [apply_setting_if_changed, hc]⟩
    · exact ⟨{ o with auto_scene_switch := some value }, true,
        by simp +decide [apply_setting_if_changed, hc],
        by simp +decide [apply_setting_if_changed]⟩
  · by_cases hc : o.low_quality_fallback = some value
    · exact ⟨o, false, by simp +decide [apply_setting_if_changed, hc],
        by simp +decide [apply_setting_if_changed, hc]⟩
    · exact ⟨{ o with low_quality_fallback := some value }, true,
        by simp +decide [apply_setting_if_changed, hc],
        by simp +decide [apply_setting_if_changed]⟩
  · by_cases hc : o.manual_override = some value
    · exact ⟨o, false, by simp +decide [apply_setting_if_changed, hc],
        by simp +decide [apply_setting_if_changed, hc]⟩
    · exact ⟨{ o with manual_override := some value }, true,
        by simp +decide [apply_setting_if_changed, hc],
        by simp +decide [apply_setting_if_changed]⟩
  · by_cases hc : o.chat_bot = some value
    · exact ⟨o, false, by simp +decide [apply_setting_if_changed, hc],
        by simp +decide [apply_setting_if_changed, hc]⟩
    · exact ⟨{ o with chat_bot := some value }, true,
        by simp +decide [apply_setting_if_changed, hc],
        by simp +decide [apply_setting_if_changed]⟩
  · by_cases hc : o.alerts = some value
    · exact ⟨o, false, by simp +decide [apply_setting_if_changed, hc],
        by simp +decide [apply_setting_if_changed, hc]⟩
    · exact ⟨{ o with alerts := some value }, true,
        by simp +decide [apply_setting_if_changed, hc],
        by simp +decide [apply_setting_if_changed]⟩

theorem hi_lastPing (st : SessionState) (env : Envelope IpcValue) (frame : TelemetryFrame)
    (relay : Option RelaySession) (now : Int) :
    (handle_incoming st env frame relay now).1.lastPingAt = st.lastPingAt
    ∨ ((handle_incoming st env frame relay now).1.lastPingAt = now ∧
       ((env.message_type = "ping" ∧ ∃ p, env.payload = .vPing p) ∨
        (env.message_type = "hello" ∧ ∃ h, env.payload = .vHello h ∧
           h.protocol_version = IPC_PROTOCOL_VERSION))) := by
  by_cases hv : env.v = IPC_PROTOCOL_VERSION
  case neg => rw [hi_version_mismatch st env frame relay now hv]; left; rfl
  by_cases h1 : env.message_type = "hello"
  · cases hd : decodeHello env.payload with
    | none =>
      rw [hi_hello_decode_fail st env frame relay now hv h1 hd]
      left; simp [onPayloadDecodeFailure]
    | some hello =>
      have hp := (decodeHello_eq_some env.payload hello).mp hd
      by_cases hver : hello.protocol_version = IPC_PROTOCOL_VERSION
      · rw [hi_hello_ok st env hello frame relay now hv h1 hp hver]
        right; exact ⟨rfl, Or.inr ⟨h1, hello, hp, hver⟩⟩
      · rw [hi_hello_mismatch st env hello frame relay now hv h1 hp hver]
        left; rfl
  by_cases h2 : env.message_type = "ping"
  · cases hd : decodePing env.payload with
    | none =>
      rw [hi_ping_decode_fail st env frame relay now hv h2 hd]
      left; simp [onPayloadDecodeFailure]
    | some p =>
      have hp := (decodePing_eq_some env.payload p).mp hd
      rw [hi_ping st env p frame relay now hv h2 hp]
      right; exact ⟨rfl, Or.inl ⟨h2, p, hp⟩⟩
  by_cases h3 : env.message_type = "request_status"
  · cases hd : decodeRequestStatus env.payload with
    | none =>
      rw [hi_request_status_decode_fail st env frame relay now hv h3 hd]
      left; simp [onPayloadDecodeFailure]
    | some p =>
      have hp := (decodeRequestStatus_eq_some env.payload p).mp hd
      rw [hi_request_status st env frame relay now hv h3 hp]
      left; rfl
  by_cases h4 : env.message_type = "set_mode_request"
  · cases hd : decodeSetMode env.payload with
    | none =>
      rw [hi_set_mode_decode_fail st env frame relay now hv h4 hd]
      left; simp [onPayloadDecodeFailure]
    | some req =>
      have hp := (decodeSetMode_eq_some env.payload req).mp hd
      by_cases hm1 : req.mode = "studio"
      · rw [hi_set_mode_valid st env req frame relay now .studio hv h4 hp (Or.inl ⟨hm1, rfl⟩)]
        by_cases hcur : st.sessionOverrides.mode = some SnapshotMode.studio
        · rw [if_pos hcur]; left; rfl
        · rw [if_neg hcur]; left; rfl
      by_cases hm2 : req.mode = "irl"
      · rw [hi_set_mode_valid st env req frame relay now .irl hv h4 hp (Or.inr ⟨hm2, rfl⟩)]
        by_cases hcur : st.sessionOverrides.mode = some SnapshotMode.irl
        · rw [if_pos hcur]; left; rfl
        · rw [if_neg hcur]; left; rfl
      rw [hi_set_mode_invalid st env req frame relay now hv h4 hp hm1 hm2]
      left; rfl
  by_cases h5 : env.message_type = "set_setting_request"
  · cases hd : decodeSetSetting env.payload with
    | none =>
      rw [hi_set_setting_decode_fail st env frame relay now hv h5 hd]
      left; simp [onPayloadDecodeFailure]
    | some req =>
      have hp := (decodeSetSetting_eq_some env.payload req).mp hd
      cases happ : apply_setting_if_changed st.sessionOverrides req.key req.value with
      | error e =>
        cases e
        have hkey : req.key ∉ SETTING_KEYS := by
          intro hmem
          obtain ⟨o', c', h1', _⟩ := apply_setting_known st.sessionOverrides req.key req.value hmem
          rw [happ] at h1'
          cases h1'
        rw [hi_set_setting_unknown st env req frame relay now hv h5 hp hkey]
        left; rfl
      | ok pr =>
        rw [hi_set_setting_ok st env req frame relay now pr.1 pr.2 hv h5 hp (by rw [happ])]
        by_cases hch : pr.2 = false
        · rw [if_pos hch]; left; rfl
        · rw [if_neg hch]; left; rfl
  by_cases h6 : env.message_type = "scene_switch_result"
  · cases hd : decodeSceneSwitchResult env.payload with
    | none =>
      rw [hi_scene_result_decode_fail st env frame relay now hv h6 hd]
      left; simp [onPayloadDecodeFailure]
    | some result =>
      have hp := (decodeSceneSwitchResult_eq_some env.payload result).mp hd
      cases hlk : pendingLookup st.pendingSwitches result.request_id with
      | none =>
        rw [hi_scene_result_unknown st env result frame relay now hv h6 hp hlk]
        left; rfl
      | some pending =>
        rw [hi_scene_result_known st env result frame relay now pending hv h6 hp hlk]
        left; rfl
  by_cases h7 : env.message_type = "obs_shutdown_notice"
  · cases hd : decodeObsShutdown env.payload with
    | none =>
      rw [hi_obs_shutdown_decode_fail st env frame relay now hv h7 hd]
      left; simp [onPayloadDecodeFailure]
    | some notice =>
      have hp := (decodeObsShutdown_eq_some env.payload notice).mp hd
      rw [hi_obs_shutdown st env notice frame relay now hv h7 hp]
      left; rfl
  rw [hi_unknown_type st env frame relay now hv h1 h2 h3 h4 h5 h6 h7]
  left; rfl

theorem step_lastPing (st : SessionState) (e : Event) :
    (session_step st e).1.lastPingAt = st.lastPingAt
    ∨ (∃ env frame relay now, e = .incoming env frame relay now ∧
        (session_step st e).1.lastPingAt = now ∧
        ((env.message_type = "ping" ∧ ∃ p, env.payload = .vPing p) ∨
         (env.message_type = "hello" ∧ ∃ h, env.payload = .vHello h ∧
            h.protocol_version = IPC_PROTOCOL_VERSION))) := by
  cases e with
  | coreCmd cmd freshId now =>
    cases cmd with
    | switchScene scene_name reason deadline_ms =>
      left
      simp only [session_step, handle_core_command]
      split <;> rfl
  | sweep now => left; rfl
  | statusPush frame relay now =>
    left
    simp only [session_step, status_push_check]
    split <;> rfl
  | heartbeat now =>
    left
    simp only [session_step, heartbeat_check]
    split <;> rfl
  | readTimeout => left; rfl
  | readFrameError tooLarge msg now => left; rfl
  | incoming env frame relay now =>
    rcases hi_lastPing st env frame relay now with h | ⟨hn, hcase⟩
    · left; exact h
    · right; exact ⟨env, frame, relay, now, rfl, hn, hcase⟩

theorem run_session_domain_errors : ∀ events : List Event,
    (∀ e ∈ events, DomainErrorEvent e) → ∀ st : SessionState,
    (run_session st events).1 = st ∧ (run_session st events).2.2 = false := by
  intro events
  induction events with
  | nil => intro _ st; exact ⟨rfl, rfl⟩
  | cons e es ih =>
    intro hall st
    have he := hall e (List.mem_cons_self e es)
    have hes : ∀ e' ∈ es, DomainErrorEvent e' :=
      fun e' h' => hall e' (List.mem_cons_of_mem _ h')
    cases e with
    | incoming env f r now =>
      obtain ⟨hv, hcase⟩ := he
      have hih := ih hes st
      rcases hr : run_session st es with ⟨st2, outs2, term2⟩
      rw [hr] at hih
      rcases hcase with ⟨req, hp, hty, hm1, hm2⟩ | ⟨req, hp, hty, hkey⟩
      · have harm := hi_set_mode_invalid st env req f r now hv hty hp hm1 hm2
        have hstep : session_step st (Event.incoming env f r now)
            = handle_incoming st env f r now := rfl
        simp only [run_session, hstep, harm, hr]
        exact ⟨hih.1, hih.2⟩
      · have harm := hi_set_setting_unknown st env req f r now hv hty hp hkey
        have hstep : session_step st (Event.incoming env f r now)
            = handle_incoming st env f r now := rfl
        simp only [run_session, hstep, harm, hr]
        exact ⟨hih.1, hih.2⟩
    | coreCmd cmd freshId now => cases he
    | sweep now => cases he
    | statusPush f r now => cases he
    | heartbeat now => cases he
    | readTimeout => cases he
    | readFrameError tooLarge msg now => cases he

/-- C1 counterexample: in the `AwaitHello` state (fresh session,
`handshakeComplete = false`), an inbound `ping` frame IS dispatched: the
handler emits a `pong` and refreshes `last_ping`, contradicting the claim
that a ping arriving before a successful hello produces no dispatch
effects. -/
theorem c1_counterexample :
    (initialSessionState 0).handshakeComplete = false
    ∧ session_step (initialSessionState 0) (.incoming exPingEnv exFrame none 5)
        = ({ initialSessionState 0 with lastPingAt := 5 },
           [Output.frame (OutFrame.pong "n" .normal)], .cont) := by
  constructor
  · rfl
  · rw [show session_step (initialSessionState 0) (.incoming exPingEnv exFrame none 5)
        = handle_incoming (initialSessionState 0) exPingEnv exFrame none 5 from rfl]
    exact hi_ping _ _ _ _ _ _ rfl rfl rfl

/-- C1 (amended): imperative fan-in commands are discarded before the
handshake, and the periodic status push and heartbeat watchdog run only in
`Running`; the inbound dispatch, however, is not gated on the session state:
a well-formed `ping` is processed with its normal effects regardless of
`handshakeComplete`, and a valid `hello` arriving while already `Running` is
re-processed (another `hello_ack` is emitted, `last_ping` is reset and an
immediate status push is scheduled). -/
theorem c1_dispatch_not_state_gated :
    (∀ (st : SessionState) (cmd : CoreIpcCommand) (freshId : String) (now : Int),
        st.handshakeComplete = false → handle_core_command st cmd freshId now = (st, []))
    ∧ (∀ (st : SessionState) (f : TelemetryFrame) (r : Option RelaySession) (now : Int),
        st.handshakeComplete = false → status_push_check st f r now = (st, []))
    ∧ (∀ (st : SessionState) (now : Int),
        st.handshakeComplete = false → heartbeat_check st now = (st, [], .cont))
    ∧ (∀ (st : SessionState) (env : Envelope IpcValue) (p : PingPayload)
        (f : TelemetryFrame) (r : Option RelaySession) (now : Int),
        env.v = IPC_PROTOCOL_VERSION → env.message_type = "ping" →
        env.payload = .vPing p →
        handle_incoming st env f r now
          = ({ st with lastPingAt := now },
             [Output.frame (OutFrame.pong p.nonce .normal)], .cont))
    ∧ (∀ (st : SessionState) (env : Envelope IpcValue) (h : HelloPayload)
        (f : TelemetryFrame) (r : Option RelaySession) (now : Int),
        st.handshakeComplete = true → env.v = IPC_PROTOCOL_VERSION →
        env.message_type = "hello" → env.payload = .vHello h →
        h.protocol_version = IPC_PROTOCOL_VERSION →
        handle_incoming st env f r now
          = ({ st with
                 handshakeComplete := true
                 lastPingAt := now
                 lastStatusPushAt := now - STATUS_PUSH_INTERVAL_MS },
             [Output.frame (OutFrame.helloAck
                { core_version := CORE_VERSION
                  protocol_version := IPC_PROTOCOL_VERSION
                  capabilities := ["state_machine", "aegis", "ipc_stub"] } .high)],
             .cont)) := by
  refine ⟨?_, ?_, ?_, ?_, ?_⟩
  · intro st cmd freshId now h
    cases cmd with
    | switchScene a b c => simp [handle_core_command, h]
  · intro st f r now h
    simp [status_push_check, h]
  · intro st now h
    simp [heartbeat_check, h]
  · intro st env p f r now hv hty hp
    exact hi_ping st env p f r now hv hty hp
  · intro st env h f r now _ hv hty hp hver
    exact hi_hello_ok st env h f r now hv hty hp hver

/-- Witness for C1 (amended) at a concrete fresh session and ping frame. -/
theorem c1_dispatch_not_state_gated_witness :
    handle_incoming (initialSessionState 0) exPingEnv exFrame none 5
      = ({ initialSessionState 0 with lastPingAt := 5 },
         [Output.frame (OutFrame.pong "n" .normal)], .cont)
    ∧ (initialSessionState 0).handshakeComplete = false :=
  ⟨c1_dispatch_not_state_gated.2.2.2.1 (initialSessionState 0) exPingEnv { nonce := "n" }
     exFrame none 5 rfl rfl rfl, rfl⟩

/-- C6 counterexample: in a `Running` session, a successfully decoded
`hello` frame (not a `ping`) refreshes `last_ping` to the current instant,
contradicting the claim that after entering `Running`, `last_ping` is
refreshed only by a successfully decoded ping. -/
theorem c6_counterexample :
    exRunningState.handshakeComplete = true
    ∧ exRunningState.lastPingAt = 0
    ∧ exHelloEnv.message_type = "hello"
    ∧ exHelloEnv.message_type ≠ "ping"
    ∧ (session_step exRunningState (.incoming exHelloEnv exFrame none 777)).1.lastPingAt
        = 777 := by
  refine ⟨rfl, rfl, rfl, by decide, ?_⟩
  rw [show session_step exRunningState (.incoming exHelloEnv exFrame none 777)
      = handle_incoming exRunningState exHelloEnv exFrame none 777 from rfl]
  rw [hi_hello_ok exRunningState exHelloEnv
    { plugin_version := "0.0.3", protocol_version := 1, obs_pid := 1234
      capabilities := ["dock"] } exFrame none 777 rfl rfl rfl rfl]

/-- C6 (amended): when `Running` and `now - last_ping` reaches the
heartbeat timeout (3500 ms in production) the loop emits a
`protocol_error{timeout}` and terminates by returning normally; `last_ping`
is refreshed to the current instant by every successfully decoded `ping` and
also by every successfully decoded version-1 `hello` (the dispatch is not
state-gated), and by no other event. -/
theorem c6_heartbeat_and_last_ping :
    HEARTBEAT_TIMEOUT_MS = 3500
    ∧ (∀ (st : SessionState) (now : Int),
        st.handshakeComplete = true → now - st.lastPingAt ≥ HEARTBEAT_TIMEOUT_MS →
        heartbeat_check st now
          = (st,
             [Output.frame (OutFrame.protocolError .timeout
                "Heartbeat timeout (missing ping)" none .high),
              Output.debug (.notice "Heartbeat timeout (missing ping)")],
             .terminated))
    ∧ (∀ (st : SessionState) (now : Int),
        ¬(st.handshakeComplete = true ∧ now - st.lastPingAt ≥ HEARTBEAT_TIMEOUT_MS) →
        heartbeat_check st now = (st, [], .cont))
    ∧ (∀ (st : SessionState) (env : Envelope IpcValue) (p : PingPayload)
        (f : TelemetryFrame) (r : Option RelaySession) (now : Int),
        env.v = IPC_PROTOCOL_VERSION → env.message_type = "ping" →
        env.payload = .vPing p →
        (handle_incoming st env f r now).1.lastPingAt = now)
    ∧ (∀ (st : SessionState) (env : Envelope IpcValue) (h : HelloPayload)
        (f : TelemetryFrame) (r : Option RelaySession) (now : Int),
        env.v = IPC_PROTOCOL_VERSION → env.message_type = "hello" →
        env.payload = .vHello h → h.protocol_version = IPC_PROTOCOL_VERSION →
        (handle_incoming st env f r now).1.lastPingAt = now)
    ∧ (∀ (st : SessionState) (e : Event),
        (session_step st e).1.lastPingAt = st.lastPingAt
        ∨ (∃ env frame relay now, e = .incoming env frame relay now ∧
            (session_step st e).1.lastPingAt = now ∧
            ((env.message_type = "ping" ∧ ∃ p, env.payload = .vPing p) ∨
             (env.message_type = "hello" ∧ ∃ h, env.payload = .vHello h ∧
                h.protocol_version = IPC_PROTOCOL_VERSION)))) := by
  refine ⟨rfl, ?_, ?_, ?_, ?_, step_lastPing⟩
  · intro st now h1 h2
    simp only [heartbeat_check, if_pos (And.intro h1 h2)]
  · intro st now h
    simp only [heartbeat_check, if_neg h]
  · intro st env p f r now hv hty hp
    rw [hi_ping st env p f r now hv hty hp]
  · intro st env h f r now hv hty hp hver
    rw [hi_hello_ok st env h f r now hv hty hp hver]

/-- Witness for C6 (amended): the heartbeat fires at a concrete running
state whose `last_ping` is 3500 ms old. -/
theorem c6_heartbeat_and_last_ping_witness :
    heartbeat_check exRunningState 3500
      = (exRunningState,
         [Output.frame (OutFrame.protocolError .timeout
            "Heartbeat timeout (missing ping)" none .high),
          Output.debug (.notice "Heartbeat timeout (missing ping)")],
         .terminated) :=
  c6_heartbeat_and_last_ping.2.1 exRunningState 3500 rfl (by decide)

/-- C3: over any event trace of a session whose generated request ids are
pairwise distinct, each `request_id` receives at most one terminal
debug-mirror update (one `ok`/`error` entry or one `timeout` entry, never
both); and a `scene_switch_result` whose `request_id` is not in the pending
table updates the mirror with status `unknown_request` and emits no outbound
frame. -/
theorem c3_terminal_debug_updates (startNow : Int) (events : List Event)
    (hnodup : (commandFreshIds events).Nodup) :
    (∀ k, terminalResultCount (run_session (initialSessionState startNow) events).2.1 k ≤ 1)
    ∧ (∀ (st : SessionState) (env : Envelope IpcValue) (result : SceneSwitchResultPayload)
        (frame : TelemetryFrame) (relay : Option RelaySession) (now : Int),
        env.v = IPC_PROTOCOL_VERSION → env.message_type = "scene_switch_result" →
        env.payload = .vSceneSwitchResult result →
        pendingLookup st.pendingSwitches result.request_id = none →
        handle_incoming st env frame relay now
          = (st,
             [Output.debug (.switchResult result.request_id "unknown_request" result.error),
              Output.debug (.notice "scene_switch_result for unknown request")],
             .cont)) := by
  constructor
  · intro k
    have h := run_session_account events (initialSessionState startNow) k
    have hkc : keyCount (initialSessionState startNow).pendingSwitches k = 0 := rfl
    have hcnt : (commandFreshIds events).count k ≤ 1 :=
      List.nodup_iff_count_le_one.mp hnodup k
    omega
  · exact fun st env result frame relay now hv hty hp hlk =>
      hi_scene_result_unknown st env result frame relay now hv hty hp hlk

/-- Witness for C3 on a concrete trace: hello, one switch-scene command,
a sweep that times the request out, then a late ack for the same id. -/
theorem c3_terminal_debug_updates_witness :
    (commandFreshIds c3WitnessEvents).Nodup
    ∧ terminalResultCount (run_session (initialSessionState 0) c3WitnessEvents).2.1 "R1" ≤ 1 :=
  ⟨by decide, (c3_terminal_debug_updates 0 c3WitnessEvents (by decide)).1 "R1"⟩

theorem apply_setting_noop_eq (o : SessionOverrides) (key : String) (value : Bool)
    (o' : SessionOverrides) (h : apply_setting_if_changed o key value = .ok (o', false)) :
    o' = o := by
  unfold apply_setting_if_changed at h
  repeat' split at h
  all_goals simp_all

/-- C8: a `set_mode_request` or `set_setting_request` whose value equals
the current override is a no-op producing zero outbound frames, while one
that changes an override produces a `user_notice{info}` followed by a
priority-`high` `status_snapshot`; applying the same valid set-request twice
in a row yields outbound traffic only for the first. -/
theorem c8_override_idempotence :
    (∀ (st : SessionState) (env : Envelope IpcValue) (req : SetModeRequestPayload)
       (f : TelemetryFrame) (r : Option RelaySession) (now : Int) (m : SnapshotMode),
       env.v = IPC_PROTOCOL_VERSION → env.message_type = "set_mode_request" →
       env.payload = .vSetMode req →
       ((req.mode = "studio" ∧ m = .studio) ∨ (req.mode = "irl" ∧ m = .irl)) →
       (st.sessionOverrides.mode = some m →
          handle_incoming st env f r now = (st, [], .cont))
       ∧ (st.sessionOverrides.mode ≠ some m →
          handle_incoming st env f r now
            = ({ st with
                   sessionOverrides := { st.sessionOverrides with mode := some m }
                   lastStatusPushAt := now },
               [Output.frame (OutFrame.userNotice .info
                  ("Dock mode override set to " ++ req.mode) .normal),
                Output.frame (OutFrame.statusSnapshot
                  (build_status_snapshot_with_overrides f r
                    { st.sessionOverrides with mode := some m }) .high)],
               .cont)))
    ∧ (∀ (st : SessionState) (env : Envelope IpcValue) (req : SetSettingRequestPayload)
       (f : TelemetryFrame) (r : Option RelaySession) (now : Int)
       (o' : SessionOverrides) (changed : Bool),
       env.v = IPC_PROTOCOL_VERSION → env.message_type = "set_setting_request" →
       env.payload = .vSetSetting req →
       apply_setting_if_changed st.sessionOverrides req.key req.value = .ok (o', changed) →
       (changed = false → handle_incoming st env f r now = (st, [], .cont))
       ∧ (changed = true →
          handle_incoming st env f r now
            = ({ st with sessionOverrides := o', lastStatusPushAt := now },
               [Output.frame (OutFrame.userNotice .info
                  ("Dock setting '" ++ req.key ++ "' set to "
                    ++ (if req.value then "true" else "false")) .normal),
                Output.frame (OutFrame.statusSnapshot
                  (build_status_snapshot_with_overrides f r o') .high)],
               .cont)))
    ∧ (∀ (st : SessionState) (env1 env2 : Envelope IpcValue) (req : SetModeRequestPayload)
       (f1 f2 : TelemetryFrame) (r1 r2 : Option RelaySession) (now1 now2 : Int)
       (m : SnapshotMode),
       env1.v = IPC_PROTOCOL_VERSION → env1.message_type = "set_mode_request" →
       env1.payload = .vSetMode req →
       env2.v = IPC_PROTOCOL_VERSION → env2.message_type = "set_mode_request" →
       env2.payload = .vSetMode req →
       ((req.mode = "studio" ∧ m = .studio) ∨ (req.mode = "irl" ∧ m = .irl)) →
       handle_incoming (handle_incoming st env1 f1 r1 now1).1 env2 f2 r2 now2
         = ((handle_incoming st env1 f1 r1 now1).1, [], .cont))
    ∧ (∀ (st : SessionState) (env1 env2 : Envelope IpcValue) (req : SetSettingRequestPayload)
       (f1 f2 : TelemetryFrame) (r1 r2 : Option RelaySession) (now1 now2 : Int),
       env1.v = IPC_PROTOCOL_VERSION → env1.message_type = "set_setting_request" →
       env1.payload = .vSetSetting req →
       env2.v = IPC_PROTOCOL_VERSION → env2.message_type = "set_setting_request" →
       env2.payload = .vSetSetting req →
       req.key ∈ SETTING_KEYS →
       handle_incoming (handle_incoming st env1 f1 r1 now1).1 env2 f2 r2 now2
         = ((handle_incoming st env1 f1 r1 now1).1, [], .cont)) := by
  have hmode : ∀ (st : SessionState) (env : Envelope IpcValue) (req : SetModeRequestPayload)
      (f : TelemetryFrame) (r : Option RelaySession) (now : Int) (m : SnapshotMode),
      env.v = IPC_PROTOCOL_VERSION → env.message_type = "set_mode_request" →
      env.payload = .vSetMode req →
      ((req.mode = "studio" ∧ m = .studio) ∨ (req.mode = "irl" ∧ m = .irl)) →
      (st.sessionOverrides.mode = some m →
         handle_incoming st env f r now = (st, [], .cont))
      ∧ (st.sessionOverrides.mode ≠ some m →
         handle_incoming st env f r now
           = ({ st with
                  sessionOverrides := { st.sessionOverrides with mode := some m }
                  lastStatusPushAt := now },
              [Output.frame (OutFrame.userNotice .info
                 ("Dock mode override set to " ++ req.mode) .normal),
               Output.frame (OutFrame.statusSnapshot
                 (build_status_snapshot_with_overrides f r
                   { st.sessionOverrides with mode := some m }) .high)],
              .cont)) := by
    intro st env req f r now m hv hty hp hm
    rw [hi_set_mode_valid st env req f r now m hv hty hp hm]
    constructor
    · intro hcur; rw [if_pos hcur]
    · intro hcur; rw [if_neg hcur]
  have hsetting : ∀ (st : SessionState) (env : Envelope IpcValue)
      (req : SetSettingRequestPayload) (f : TelemetryFrame) (r : Option RelaySession)
      (now : Int) (o' : SessionOverrides) (changed : Bool),
      env.v = IPC_PROTOCOL_VERSION → env.message_type = "set_setting_request" →
      env.payload = .vSetSetting req →
      apply_setting_if_changed st.sessionOverrides req.key req.value = .ok (o', changed) →
      (changed = false → handle_incoming st env f r now = (st, [], .cont))
      ∧ (changed = true →
         handle_incoming st env f r now
           = ({ st with sessionOverrides := o', lastStatusPushAt := now },
              [Output.frame (OutFrame.userNotice .info
                 ("Dock setting '" ++ req.key ++ "' set to "
                   ++ (if req.value then "true" else "false")) .normal),
               Output.frame (OutFrame.statusSnapshot
                 (build_status_snapshot_with_overrides f r o') .high)],
              .cont)) := by
    intro st env req f r now o' changed hv hty hp happ
    rw [hi_set_setting_ok st env req f r now o' changed hv hty hp happ]
    constructor
    · intro hch; rw [if_pos hch]
    · intro hch; rw [if_neg (by simp [hch])]
  refine ⟨hmode, hsetting, ?_, ?_⟩
  · intro st env1 env2 req f1 f2 r1 r2 now1 now2 m hv1 hty1 hp1 hv2 hty2 hp2 hm
    by_cases hcur : st.sessionOverrides.mode = some m
    · have h1 := (hmode st env1 req f1 r1 now1 m hv1 hty1 hp1 hm).1 hcur
      rw [h1]
      exact (hmode st env2 req f2 r2 now2 m hv2 hty2 hp2 hm).1 hcur
    · have h1 := (hmode st env1 req f1 r1 now1 m hv1 hty1 hp1 hm).2 hcur
      rw [h1]
      exact (hmode _ env2 req f2 r2 now2 m hv2 hty2 hp2 hm).1 rfl
  · intro st env1 env2 req f1 f2 r1 r2 now1 now2 hv1 hty1 hp1 hv2 hty2 hp2 hkey
    obtain ⟨o', changed, h1, h2⟩ :=
      apply_setting_known st.sessionOverrides req.key req.value hkey
    by_cases hch : changed = false
    · subst hch
      have hfirst := (hsetting st env1 req f1 r1 now1 o' false hv1 hty1 hp1 h1).1 rfl
      rw [hfirst]
      have ho : o' = st.sessionOverrides := apply_setting_noop_eq _ _ _ _ h1
      subst ho
      exact (hsetting st env2 req f2 r2 now2 _ false hv2 hty2 hp2 h2).1 rfl
    · have hch2 : changed = true := by revert hch; cases changed <;> simp
      subst hch2
      have hfirst := (hsetting st env1 req f1 r1 now1 o' true hv1 hty1 hp1 h1).2 rfl
      rw [hfirst]
      exact (hsetting _ env2 req f2 r2 now2 o' false hv2 hty2 hp2 h2).1 rfl

/-- C10: domain errors (a `set_mode_request` with an invalid mode string,
a `set_setting_request` with an unknown key) emit a
`protocol_error{invalid_payload}` but leave the whole session state,
including the protocol-error tracker, unchanged, so any number of them alone
never terminates the session via the repeated-protocol-error reset; by
contrast, unknown-type frames and payload-decode failures are recorded in
the tracker. -/
theorem c10_domain_errors_unrecorded :
    (∀ (st : SessionState) (env : Envelope IpcValue) (req : SetModeRequestPayload)
       (f : TelemetryFrame) (r : Option RelaySession) (now : Int),
       env.v = IPC_PROTOCOL_VERSION → env.message_type = "set_mode_request" →
       env.payload = .vSetMode req → req.mode ≠ "studio" → req.mode ≠ "irl" →
       handle_incoming st env f r now
         = (st, [Output.frame (OutFrame.protocolError .invalidPayload
             ("Invalid mode for set_mode_request: " ++ req.mode) (some env.id) .high)],
            .cont))
    ∧ (∀ (st : SessionState) (env : Envelope IpcValue) (req : SetSettingRequestPayload)
       (f : TelemetryFrame) (r : Option RelaySession) (now : Int),
       env.v = IPC_PROTOCOL_VERSION → env.message_type = "set_setting_request" →
       env.payload = .vSetSetting req → req.key ∉ SETTING_KEYS →
       handle_incoming st env f r now
         = (st, [Output.frame (OutFrame.protocolError .invalidPayload
             ("Unsupported setting key for set_setting_request: " ++ req.key)
             (some env.id) .high)],
            .cont))
    ∧ (∀ events : List Event, (∀ e ∈ events, DomainErrorEvent e) → ∀ st : SessionState,
        (run_session st events).1 = st ∧ (run_session st events).2.2 = false)
    ∧ (∀ (st : SessionState) (env : Envelope IpcValue) (f : TelemetryFrame)
        (r : Option RelaySession) (now : Int),
        env.v = IPC_PROTOCOL_VERSION →
        env.message_type ≠ "hello" → env.message_type ≠ "ping" →
        env.message_type ≠ "request_status" → env.message_type ≠ "set_mode_request" →
        env.message_type ≠ "set_setting_request" →
        env.message_type ≠ "scene_switch_result" →
        env.message_type ≠ "obs_shutdown_notice" →
        (handle_incoming st env f r now).1.protocolErrors
          = (record_and_should_reset st.protocolErrors now).1)
    ∧ (∀ (st : SessionState) (env : Envelope IpcValue) (f : TelemetryFrame)
        (r : Option RelaySession) (now : Int),
        env.v = IPC_PROTOCOL_VERSION → env.message_type = "ping" →
        decodePing env.payload = none →
        (handle_incoming st env f r now).1.protocolErrors
          = (record_and_should_reset st.protocolErrors now).1) := by
  refine ⟨?_, ?_, run_session_domain_errors, ?_, ?_⟩
  · intro st env req f r now hv hty hp hm1 hm2
    exact hi_set_mode_invalid st env req f r now hv hty hp hm1 hm2
  · intro st env req f r now hv hty hp hkey
    exact hi_set_setting_unknown st env req f r now hv hty hp hkey
  · intro st env f r now hv h1 h2 h3 h4 h5 h6 h7
    rw [hi_unknown_type st env f r now hv h1 h2 h3 h4 h5 h6 h7]
  · intro st env f r now hv hty hd
    rw [hi_ping_decode_fail st env f r now hv hty hd]
    simp [onPayloadDecodeFailure]

/-- Witness for C2 at a concrete connected frame and a "grace" relay
record. -/
theorem c2_state_mode_and_mode_derivation_witness :
    derive_state_mode exFrame (some exRelayGrace) = .irlGrace
    ∧ (build_status_snapshot_with_overrides exFrame (some exRelayGrace) {}).mode = .irl := by
  have h := c2_state_mode_and_mode_derivation exFrame (some exRelayGrace) {}
  have hd : derive_state_mode exFrame (some exRelayGrace) = .irlGrace := by
    have h2 := h.2.1 rfl exRelayGrace rfl
    rw [h2]
    decide
  exact ⟨hd, (h.2.2.2.1 rfl).mpr (Or.inr (Or.inr hd))⟩

/-- Witness for C4 at the concrete queue [0, 1] and now = 2 (all within
the window). -/
theorem c4_protocol_error_tracker_witness :
    (record_and_should_reset [0, 1] 2).1 = [0, 1] ++ [2]
    ∧ ((record_and_should_reset [0, 1] 2).2 = true ↔
        ([0, 1] : List Int).length + 1 > PROTOCOL_ERROR_RESET_THRESHOLD) := by
  have h := c4_protocol_error_tracker [0, 1] 2 (by decide) (by decide)
  exact h.2.2 (by decide)

/-- Witness for C5: a concrete 4-byte prefix decoding to 65537 makes the
reader fail with `frameTooLarge`. -/
theorem c5_framing_codec_witness :
    read_frame (fun _ => none) [1, 0, 1, 0] = .error (.frameTooLarge 65537) := by
  have h := c5_framing_codec (fun _ => none) [1, 0, 1, 0] 65537 [] rfl
  exact h.2.2.1 (by decide)

/-- Witness for C7 at a concrete running state and the unknown key
"bogus". -/
theorem c7_unknown_setting_key_witness :
    handle_incoming exRunningState exBadSettingEnv exFrame none 50
      = (exRunningState,
         [Output.frame (OutFrame.protocolError .invalidPayload
            ("Unsupported setting key for set_setting_request: " ++ "bogus")
            (some "m-set") .high)], .cont) :=
  c7_unknown_setting_key exRunningState exBadSettingEnv { key := "bogus", value := true }
    exFrame none 50 rfl rfl rfl (by decide)

/-- Witness for C8: two identical `set_mode_request{mode:"irl"}` in a row;
the second produces zero outbound frames. -/
theorem c8_override_idempotence_witness :
    handle_incoming (handle_incoming exRunningState exSetModeIrlEnv1 exFrame none 10).1
        exSetModeIrlEnv2 exFrame none 20
      = ((handle_incoming exRunningState exSetModeIrlEnv1 exFrame none 10).1, [], .cont) :=
  c8_override_idempotence.2.2.1 exRunningState exSetModeIrlEnv1 exSetModeIrlEnv2
    { mode := "irl" } exFrame exFrame none none 10 20 .irl
    rfl rfl rfl rfl rfl rfl (Or.inr ⟨rfl, rfl⟩)

/-- Witness for C9: a stream list whose sum exceeds the `u32` range
saturates at 4294967295, and an empty list yields 0. -/
theorem c9_saturating_bitrate_witness :
    (build_status_snapshot_with_overrides exFatFrame none {}).bitrate_kbps = 4294967295
    ∧ (build_status_snapshot_with_overrides { exFatFrame with streams := [] } none
        {}).bitrate_kbps = 0 := by
  have h1 := (c9_saturating_bitrate exFatFrame none {}).1
  have h2 := (c9_saturating_bitrate { exFatFrame with streams := [] } none {}).2.2 rfl
  refine ⟨?_, h2⟩
  rw [h1]
  decide

/-- Witness for C10: one concrete invalid-mode request leaves the session
state unchanged and does not terminate the session. -/
theorem c10_domain_errors_unrecorded_witness :
    (run_session exRunningState [Event.incoming exBadModeEnv exFrame none 5]).1
        = exRunningState
    ∧ (run_session exRunningState [Event.incoming exBadModeEnv exFrame none 5]).2.2
        = false :=
  c10_domain_errors_unrecorded.2.2.1 [Event.incoming exBadModeEnv exFrame none 5]
    (by
      intro e he
      simp at he
      subst he
      exact ⟨rfl, Or.inl ⟨{ mode := "weird" }, rfl, rfl, by decide, by decide⟩⟩)
    exRunningState
